import Mathlib

/-!
Verification of the ec65 6502 emulator core: the flat 64 KiB address space
(`src/memory.rs`), the CPU interpreter (`src/cpu.rs`), and the snapshot
codec (`src/snapshots.rs`), with the program-load entry points of
`src/server.rs` and the opcode naming table of `src/metrics.rs`.

Machine integers are modelled as `Nat` with explicit `% 256` / `% 65536`
where the Rust code uses `u8` / `u16` wrapping arithmetic or `as` casts.
Fallible Rust functions returning `Result` are modelled with `Except String`.
-/

/-- Flat 64 KiB address space (`Memory` in `src/memory.rs`, `data: [u8; 65536]`).
Modelled as a function from addresses to cell values.  The Rust `u16` index
type guarantees addresses below 65536 and the `u8` cell type guarantees
values below 256; theorems carry these bounds as hypotheses where they
matter. -/
def Memory := Nat → Nat

/-- `Memory::read`: `self.data[address as usize]`. -/
def Memory.read (m : Memory) (addr : Nat) : Nat := m addr

/-- `Memory::write`: `self.data[address as usize] = value`. -/
def Memory.write (m : Memory) (addr value : Nat) : Memory :=
  fun b => if b = addr then value else m b

/-! ## Snapshot codec (`src/snapshots.rs`)

`compress_memory` walks the buffer; at each position it counts the run of
consecutive identical bytes (capped at 255); a run of length `> 3`, or of
zero bytes, is emitted as the three-byte record `0xFF, count, value`;
otherwise the run's bytes are emitted literally, a literal `0xFF` being
escaped as `0xFF, 0x00`. -/

/-- Length of the run of bytes equal to `b` at the head of the list; the
Rust loop `while i + count < len && memory[i + count] == current_byte`
scans this prefix (the `count < 255` cap is applied separately via `min`). -/
def runCount (b : Nat) : List Nat → Nat
  | [] => 0
  | c :: t => if c = b then runCount b t + 1 else 0

/-- Encoding of one literal byte: `0xFF` is escaped as `0xFF, 0x00`
(`compressed.push(0xFF); compressed.push(0x00)`), other bytes are emitted
verbatim. -/
def escByte (x : Nat) : List Nat := if x = 255 then [255, 0] else [x]

/-- `compress_memory` from `src/snapshots.rs` lines 194-231.  The loop
index `i` advances by `count` each iteration; here the head byte plus
`count - 1` copies are consumed from the list instead. -/
def compress_memory : List Nat → List Nat
  | [] => []
  | x :: rest =>
    let k := min 255 (runCount x rest + 1)
    (if 3 < k ∨ x = 0 then [255, k, x]
     else (List.replicate k (escByte x)).flatten) ++ compress_memory (rest.drop (k - 1))
termination_by l => l.length
decreasing_by
  simp only [List.length_drop, List.length_cons]
  omega

/-- The decoder's `decompressed.push` of one literal byte, threaded through
the running result (`Err` propagates the early `return Err`). -/
def emitByte (x : Nat) : Except String (List Nat) → Except String (List Nat)
  | .ok d => .ok (x :: d)
  | .error e => .error e

/-- The decoder's `for _ in 0..count { decompressed.push(value) }`,
threaded through the running result. -/
def emitRun (p : List Nat) : Except String (List Nat) → Except String (List Nat)
  | .ok d => .ok (p ++ d)
  | .error e => .error e

/-- The decoding loop of `decompress_memory` (lines 237-267), before the
final length check: `0xFF, 0x00` decodes to a literal `0xFF`;
`0xFF, count, value` (with `count ≠ 0`) decodes to `count` copies of
`value`; any other byte is a literal.  A dangling `0xFF` or a dangling
`0xFF, count` is an error.  The Rust loop appends to an accumulator going
left to right; the recursion here prepends each decoded chunk to the
decoding of the remainder, which yields the same list. -/
def decompress_core : List Nat → Except String (List Nat)
  | [] => .ok []
  | b :: t =>
    if b = 255 then
      match t with
      | [] => .error "Truncated RLE data"
      | c :: t2 =>
        if c = 0 then emitByte 255 (decompress_core t2)
        else
          match t2 with
          | [] => .error "Truncated RLE sequence"
          | v :: t3 => emitRun (List.replicate c v) (decompress_core t3)
    else emitByte b (decompress_core t)

/-- `decompress_memory` (lines 233-274): decode, then require exactly
65536 output bytes (the Rust error message interpolates the actual size;
the format string is abbreviated here). -/
def decompress_memory (compressed : List Nat) : Except String (List Nat) :=
  match decompress_core compressed with
  | .error e => .error e
  | .ok d => if d.length ≠ 65536 then .error "Decompressed size mismatch" else .ok d

/-- A prefix no longer than the head run is constant. -/
theorem runCount_take (b : Nat) :
    ∀ (l : List Nat) (k : Nat), k ≤ runCount b l → l.take k = List.replicate k b
  | _, 0, _ => by simp
  | [], k + 1, h => by simp [runCount] at h
  | c :: t, k + 1, h => by
    by_cases hc : c = b
    · subst hc
      simp [runCount] at h
      simp only [List.take_succ_cons, List.replicate_succ]
      exact congrArg _ (runCount_take c t k (by omega))
    · simp [runCount, hc] at h

/-- Decoding a single escaped/literal byte emits that byte. -/
theorem decompress_core_esc (x : Nat) (t : List Nat) :
    decompress_core (escByte x ++ t) = emitByte x (decompress_core t) := by
  by_cases hx : x = 255
  · subst hx
    rw [show escByte 255 ++ t = 255 :: 0 :: t by simp [escByte]]
    rw [decompress_core.eq_def]
    simp
  · rw [show escByte x ++ t = x :: t by simp [escByte, hx]]
    rw [decompress_core.eq_def]
    simp [hx]

/-- Emitting one byte then a run is emitting the longer run. -/
theorem emitByte_emitRun (x : Nat) (p : List Nat) (r : Except String (List Nat)) :
    emitByte x (emitRun p r) = emitRun (x :: p) r := by
  cases r <;> simp [emitByte, emitRun]

/-- Decoding `k` encoded literal copies of `x` emits `k` copies of `x`. -/
theorem decompress_core_literal (x : Nat) :
    ∀ (k : Nat) (t : List Nat),
      decompress_core ((List.replicate k (escByte x)).flatten ++ t) =
        emitRun (List.replicate k x) (decompress_core t)
  | 0, t => by
    cases h : decompress_core t <;> simp [emitRun, h]
  | k + 1, t => by
    rw [List.replicate_succ, List.flatten_cons, List.append_assoc, decompress_core_esc,
      decompress_core_literal x k t, emitByte_emitRun, ← List.replicate_succ]

/-- Decoding an RLE record with a nonzero count emits the run. -/
theorem decompress_core_rle (k x : Nat) (hk : k ≠ 0) (t : List Nat) :
    decompress_core (255 :: k :: x :: t) =
      emitRun (List.replicate k x) (decompress_core t) := by
  rw [decompress_core.eq_def]
  simp [hk]

/-- Core round-trip: decoding the encoder's output restores the input,
for every byte list. -/
theorem decompress_core_compress :
    ∀ (m : List Nat), decompress_core (compress_memory m) = .ok m
  | [] => by simp [compress_memory, decompress_core]
  | x :: rest => by
    have hk1 : 1 ≤ min 255 (runCount x rest + 1) := le_min (by omega) (by omega)
    have hkr : min 255 (runCount x rest + 1) - 1 ≤ runCount x rest := by omega
    have htake : rest.take (min 255 (runCount x rest + 1) - 1) =
        List.replicate (min 255 (runCount x rest + 1) - 1) x :=
      runCount_take x rest _ hkr
    have ih := decompress_core_compress (rest.drop (min 255 (runCount x rest + 1) - 1))
    have hjoin : List.replicate (min 255 (runCount x rest + 1)) x ++
        rest.drop (min 255 (runCount x rest + 1) - 1) = x :: rest := by
      have hrep : List.replicate (min 255 (runCount x rest + 1)) x =
          x :: List.replicate (min 255 (runCount x rest + 1) - 1) x := by
        cases hmk : min 255 (runCount x rest + 1) with
        | zero => omega
        | succ n => simp [List.replicate_succ]
      rw [hrep, List.cons_append, ← htake, List.take_append_drop]
    rw [compress_memory]
    by_cases hif : 3 < min 255 (runCount x rest + 1) ∨ x = 0
    · rw [if_pos hif]
      show decompress_core (255 :: min 255 (runCount x rest + 1) :: x ::
        compress_memory (rest.drop (min 255 (runCount x rest + 1) - 1))) = _
      rw [decompress_core_rle _ _ (by omega) _, ih]
      exact congrArg Except.ok hjoin
    · rw [if_neg hif, decompress_core_literal, ih]
      exact congrArg Except.ok hjoin
termination_by m => m.length
decreasing_by simp only [List.length_drop, List.length_cons]; omega

/-- C1: For every 65536-byte memory buffer `M`, decompressing the
RLE-compressed stream produced by the encoder yields exactly `M`:
`decompress_memory (compress_memory M) = Ok M`. -/
theorem roundtrip_compress_decompress (m : List Nat)
    (hlen : m.length = 65536) (_hbytes : ∀ b ∈ m, b < 256) :
    decompress_memory (compress_memory m) = .ok m := by
  rw [decompress_memory, decompress_core_compress m]
  simp [hlen]

/-- Witness for C1 at the all-zero 64 KiB buffer. -/
theorem roundtrip_compress_decompress_witness :
    (List.replicate 65536 0).length = 65536 ∧
    (∀ b ∈ List.replicate 65536 0, b < 256) ∧
    decompress_memory (compress_memory (List.replicate 65536 0)) =
      .ok (List.replicate 65536 0) := by
  have hlen : (List.replicate 65536 (0 : Nat)).length = 65536 := List.length_replicate 65536 0
  have hmem : ∀ b ∈ List.replicate 65536 (0 : Nat), b < 256 := fun b hb => by
    have hb0 : b = 0 := List.eq_of_mem_replicate hb
    omega
  exact ⟨hlen, hmem, roundtrip_compress_decompress _ hlen hmem⟩

/-! ## CPU state (`src/cpu.rs`)

The register file and internal state of `struct CPU`.  Registers `a`, `x`,
`y`, `sp`, `status` are `u8` (values below 256), `pc` is `u16` (below
65536), `cycles` is `u64`; the embedding keeps them as `Nat`, maintaining
the bounds through wrapping arithmetic at each operation. -/

structure CPU where
  a : Nat
  x : Nat
  y : Nat
  pc : Nat
  sp : Nat
  status : Nat
  cycles : Nat
  halted : Bool
deriving Repr, DecidableEq

/-- Status register flag masks (`src/cpu.rs` lines 20-27). -/
def CARRY_FLAG : Nat := 0x01
def ZERO_FLAG : Nat := 0x02
def INTERRUPT_DISABLE : Nat := 0x04
def DECIMAL_MODE : Nat := 0x08
def BREAK_COMMAND : Nat := 0x10
def UNUSED_FLAG : Nat := 0x20
def OVERFLOW_FLAG : Nat := 0x40
def NEGATIVE_FLAG : Nat := 0x80

/-- `CPU::new`. -/
def CPU.new : CPU :=
  { a := 0, x := 0, y := 0, pc := 0, sp := 0xFD,
    status := UNUSED_FLAG ||| INTERRUPT_DISABLE, cycles := 0, halted := false }

/-- `CPU::set_flag`: set or clear a mask bit in the status byte.  The Rust
`!flag` is `u8` bitwise complement, modelled as `255 ^^^ flag`. -/
def CPU.set_flag (c : CPU) (flag : Nat) (value : Bool) : CPU :=
  if value then { c with status := c.status ||| flag }
  else { c with status := c.status &&& (255 ^^^ flag) }

/-- `CPU::get_flag`: `(self.status & flag) != 0`. -/
def CPU.get_flag (c : CPU) (flag : Nat) : Bool := c.status &&& flag != 0

/-- `CPU::update_zero_and_negative_flags`. -/
def CPU.update_zero_and_negative_flags (c : CPU) (value : Nat) : CPU :=
  (c.set_flag ZERO_FLAG (value == 0)).set_flag NEGATIVE_FLAG (value &&& 0x80 != 0)

/-- `CPU::halt` (`src/snapshots.rs` line 302). -/
def CPU.halt (c : CPU) : CPU := { c with halted := true }

/-- `CPU::resume` (`src/snapshots.rs` lines 306-308). -/
def CPU.resume (c : CPU) : CPU := { c with halted := false }

/-! ## Snapshot create and restore (`src/snapshots.rs`)

`EmulatorSnapshot`'s identification and bookkeeping fields (`id`, `name`,
`description`, `emulator_id`, `owner_id`, `metadata`, `created_at`,
`size_bytes`, `tags`) are not modelled: they do not influence
`restore_to_emulator` and no claim concerns them. -/

/-- `CpuSnapshot` (`src/snapshots.rs` lines 23-33). -/
structure CpuSnapshot where
  a : Nat
  x : Nat
  y : Nat
  pc : Nat
  sp : Nat
  status : Nat
  cycles : Nat
  halted : Bool
deriving Repr, DecidableEq

/-- The state-relevant fields of `EmulatorSnapshot` (lines 8-21). -/
structure EmulatorSnapshot where
  cpu_state : CpuSnapshot
  memory_dump : List Nat
deriving Repr, DecidableEq

/-- The memory image collected by `create_from_emulator`:
`for addr in 0..65536 { memory_dump.push(memory.read(addr as u16)) }`. -/
def memory_image (m : Memory) : List Nat := (List.range 65536).map m.read

/-- `EmulatorSnapshot::create_from_emulator` (lines 90-148), restricted to
the state-relevant fields.  The getters `get_register_a` … `is_halted`
return the corresponding fields directly.  Note the source stores
`cycles: 0` (its comment: "We'd need to expose this from CPU"), not the
CPU's current cycle counter. -/
def EmulatorSnapshot.create_from_emulator (cpu : CPU) (memory : Memory) : EmulatorSnapshot :=
  { cpu_state :=
      { a := cpu.a, x := cpu.x, y := cpu.y, pc := cpu.pc, sp := cpu.sp,
        status := cpu.status, cycles := 0, halted := cpu.halted },
    memory_dump := compress_memory (memory_image memory) }

/-- The restore write loop
`for (addr, &value) in decompressed.iter().enumerate() { memory.write(addr as u16, value) }`,
modelled with an explicit running index (the `as u16` cast truncates
modulo 65536). -/
def write_seq (m : Memory) (addr : Nat) : List Nat → Memory
  | [] => m
  | v :: rest => write_seq (m.write (addr % 65536) v) (addr + 1) rest

/-- `EmulatorSnapshot::restore_to_emulator` (lines 150-174).  The Rust
method mutates `cpu` and `memory` through `&mut` references and returns
`Result<(), String>`; the embedding returns the final CPU, the final
memory, and the result.  Register fields are assigned before the memory
stream is decoded, `halt` is invoked only when the snapshot's `halted`
flag is set, and `cycles` is never assigned. -/
def EmulatorSnapshot.restore_to_emulator (snap : EmulatorSnapshot) (cpu : CPU)
    (memory : Memory) : CPU × Memory × Except String Unit :=
  let cpu1 :=
    { cpu with a := snap.cpu_state.a, x := snap.cpu_state.x, y := snap.cpu_state.y,
               pc := snap.cpu_state.pc, sp := snap.cpu_state.sp,
               status := snap.cpu_state.status }
  let cpu2 := if snap.cpu_state.halted then cpu1.halt else cpu1
  match decompress_memory snap.memory_dump with
  | .error e => (cpu2, memory, .error e)
  | .ok d =>
    if d.length ≠ 65536 then (cpu2, memory, .error "Invalid memory dump size")
    else (cpu2, write_seq memory 0 d, .ok ())

/-- Reading after `Memory.write`. -/
theorem Memory.read_write (m : Memory) (addr v a : Nat) :
    (m.write addr v).read a = if a = addr then v else m.read a := rfl

/-- Characterization of the restore write loop: cells covered by the list
receive the corresponding list entry, all others are untouched. -/
theorem write_seq_read : ∀ (d : List Nat) (m : Memory) (start a : Nat),
    start + d.length ≤ 65536 → a < 65536 →
    (write_seq m start d).read a =
      if start ≤ a ∧ a < start + d.length then d.getD (a - start) 0 else m.read a
  | [], m, start, a, _, _ => by
    rw [write_seq, if_neg (by simp only [List.length_nil, Nat.add_zero]; omega)]
  | v :: rest, m, start, a, hlen, ha => by
    have hlen' : start + 1 + rest.length ≤ 65536 := by
      simp only [List.length_cons] at hlen
      omega
    have hstart : start < 65536 := by omega
    rw [write_seq, Nat.mod_eq_of_lt hstart]
    rw [write_seq_read rest _ (start + 1) a hlen' ha]
    by_cases h1 : start + 1 ≤ a ∧ a < start + 1 + rest.length
    · rw [if_pos h1, if_pos (by simp only [List.length_cons]; omega)]
      have hsub : a - start = (a - (start + 1)) + 1 := by omega
      rw [hsub, List.getD_cons_succ]
    · rw [if_neg h1, Memory.read_write]
      by_cases h2 : a = start
      · subst h2
        rw [if_pos rfl, if_pos (by simp only [List.length_cons]; omega),
          Nat.sub_self, List.getD_cons_zero]
      · rw [if_neg h2, if_neg (by simp only [List.length_cons]; omega)]

/-- The memory image has one entry per address. -/
theorem memory_image_length (m : Memory) : (memory_image m).length = 65536 := by
  rw [memory_image, List.length_map, List.length_range]

/-- Entries of the memory image are the memory's cells. -/
theorem memory_image_getD (m : Memory) (a : Nat) (h : a < 65536) :
    (memory_image m).getD a 0 = m.read a := by
  rw [memory_image, List.getD_eq_getElem?_getD, List.getElem?_map,
    List.getElem?_range h]
  rfl

/- Keep the 65536-entry image from being unfolded during unification; its
content is only ever accessed through the two lemmas above. -/
attribute [irreducible] memory_image

/-- `restore_to_emulator` never assigns the target's cycle counter. -/
theorem restore_cycles (snap : EmulatorSnapshot) (cpu : CPU) (memory : Memory) :
    (snap.restore_to_emulator cpu memory).1.cycles = cpu.cycles := by
  rw [EmulatorSnapshot.restore_to_emulator]
  cases h : decompress_memory snap.memory_dump with
  | error e => cases hh : snap.cpu_state.halted <;> simp [hh, CPU.halt]
  | ok d =>
    by_cases hl : d.length ≠ 65536 <;>
      cases hh : snap.cpu_state.halted <;> simp [hh, hl, CPU.halt]

/-- `restore_to_emulator` sets `halted` only when the snapshot's flag is
set; otherwise the target keeps its own `halted` state. -/
theorem restore_halted (snap : EmulatorSnapshot) (cpu : CPU) (memory : Memory) :
    (snap.restore_to_emulator cpu memory).1.halted =
      (snap.cpu_state.halted || cpu.halted) := by
  rw [EmulatorSnapshot.restore_to_emulator]
  cases h : decompress_memory snap.memory_dump with
  | error e => cases hh : snap.cpu_state.halted <;> simp [hh, CPU.halt]
  | ok d =>
    by_cases hl : d.length ≠ 65536 <;>
      cases hh : snap.cpu_state.halted <;> simp [hh, hl, CPU.halt]

/-- C2 (amended): restoring the snapshot taken from core state `s` over
memory `m` into any target `(t, tm)` succeeds and yields a core whose
`A`, `X`, `Y`, `PC`, `SP`, `status` and all 65536 memory cells equal
`s`'s and `m`'s.  But the claim's cycles/halted part fails: `halted` is
set only if the snapshot was halted (a halted target stays halted), and
the cycle counter keeps the target's value (the snapshot records
`cycles = 0` regardless of `s` and restore never assigns it). -/
theorem restore_of_create (s : CPU) (m : Memory) (t : CPU) (tm : Memory) :
    ((EmulatorSnapshot.create_from_emulator s m).restore_to_emulator t tm).2.2 = .ok () ∧
    ((EmulatorSnapshot.create_from_emulator s m).restore_to_emulator t tm).1 =
      { a := s.a, x := s.x, y := s.y, pc := s.pc, sp := s.sp, status := s.status,
        cycles := t.cycles, halted := s.halted || t.halted } ∧
    ∀ addr, addr < 65536 →
      ((EmulatorSnapshot.create_from_emulator s m).restore_to_emulator t tm).2.1.read addr =
        m.read addr := by
  have hdec : decompress_memory (compress_memory (memory_image m)) = .ok (memory_image m) := by
    rw [decompress_memory, decompress_core_compress]
    simp [memory_image_length]
  have hres : (EmulatorSnapshot.create_from_emulator s m).restore_to_emulator t tm =
      ({ a := s.a, x := s.x, y := s.y, pc := s.pc, sp := s.sp, status := s.status,
         cycles := t.cycles, halted := s.halted || t.halted },
       write_seq tm 0 (memory_image m), .ok ()) := by
    rw [EmulatorSnapshot.restore_to_emulator]
    simp only [EmulatorSnapshot.create_from_emulator, hdec, memory_image_length]
    rw [if_neg (by omega)]
    cases hsh : s.halted <;> simp [CPU.halt, hsh]
  have hok : ((EmulatorSnapshot.create_from_emulator s m).restore_to_emulator t tm).2.2 =
      .ok () := by rewrite [hres]; rfl
  have hcpu : ((EmulatorSnapshot.create_from_emulator s m).restore_to_emulator t tm).1 =
      { a := s.a, x := s.x, y := s.y, pc := s.pc, sp := s.sp, status := s.status,
        cycles := t.cycles, halted := s.halted || t.halted } := by rewrite [hres]; rfl
  have hmem2 : ((EmulatorSnapshot.create_from_emulator s m).restore_to_emulator t tm).2.1 =
      write_seq tm 0 (memory_image m) := by rewrite [hres]; rfl
  refine ⟨hok, hcpu, ?_⟩
  intro addr haddr
  rewrite [hmem2]
  rewrite [write_seq_read (memory_image m) tm 0 addr (by rw [memory_image_length]) haddr]
  rewrite [if_pos ⟨Nat.zero_le _, by rw [memory_image_length]; omega⟩, Nat.sub_zero]
  exact memory_image_getD m addr haddr

/-- Source core state for the C2 scenario: five executed instructions,
not halted. -/
def c2Src : CPU :=
  { a := 1, x := 2, y := 3, pc := 4, sp := 5, status := 6, cycles := 5, halted := false }

/-- Source memory for the C2 scenario. -/
def c2Mem : Memory := fun _ => 7

/-- Target core for the C2 scenario: zero cycles, halted. -/
def c2Tgt : CPU :=
  { a := 0, x := 0, y := 0, pc := 0, sp := 0, status := 0, cycles := 0, halted := true }

/-- Target memory for the C2 scenario. -/
def c2TgtMem : Memory := fun _ => 0

/-- Witness for C2 (amended) at the concrete scenario. -/
theorem restore_of_create_witness :
    ((EmulatorSnapshot.create_from_emulator c2Src c2Mem).restore_to_emulator c2Tgt c2TgtMem).2.2 =
      .ok () ∧
    ((EmulatorSnapshot.create_from_emulator c2Src c2Mem).restore_to_emulator c2Tgt c2TgtMem).2.1.read 0 =
      7 := by
  have h := restore_of_create c2Src c2Mem c2Tgt c2TgtMem
  exact ⟨h.1, by rw [h.2.2 0 (by omega)]; rfl⟩

/-- C2 counterexample: restoring the snapshot taken from `c2Src`
(`cycles = 5`, `halted = false`) into `c2Tgt` (`cycles = 0`,
`halted = true`) yields a core whose cycle counter is not `c2Src`'s and
whose halted flag is not `c2Src`'s — the claim that restore overwrites
the cycles counter and the halted flag with the snapshot's recorded
values is false. -/
theorem restore_of_create_counterexample :
    ((EmulatorSnapshot.create_from_emulator c2Src c2Mem).restore_to_emulator c2Tgt c2TgtMem).1.cycles ≠
      c2Src.cycles ∧
    ((EmulatorSnapshot.create_from_emulator c2Src c2Mem).restore_to_emulator c2Tgt c2TgtMem).1.halted ≠
      c2Src.halted := by
  constructor
  · rw [restore_cycles]
    decide
  · rw [restore_halted]
    decide

/-- C5 (amended): if the restore fails (malformed stream or wrong
decompressed size), an error is returned and the target memory is
untouched — but the claim's register part fails: the CPU registers and
status (and, when the snapshot was halted, the halted flag) have already
been overwritten with the snapshot's values before the failure is
detected; only the cycle counter keeps the target's value. -/
theorem restore_error_state (snap : EmulatorSnapshot) (c : CPU) (m : Memory) (e : String)
    (herr : (snap.restore_to_emulator c m).2.2 = .error e) :
    (snap.restore_to_emulator c m).2.1 = m ∧
    (snap.restore_to_emulator c m).1 =
      { a := snap.cpu_state.a, x := snap.cpu_state.x, y := snap.cpu_state.y,
        pc := snap.cpu_state.pc, sp := snap.cpu_state.sp, status := snap.cpu_state.status,
        cycles := c.cycles, halted := snap.cpu_state.halted || c.halted } := by
  cases h : decompress_memory snap.memory_dump with
  | error e2 =>
    constructor
    · rw [EmulatorSnapshot.restore_to_emulator, h]
    · rw [EmulatorSnapshot.restore_to_emulator, h]
      cases hh : snap.cpu_state.halted <;> simp [hh, CPU.halt]
  | ok d =>
    by_cases hl : d.length = 65536
    · exfalso
      rw [EmulatorSnapshot.restore_to_emulator, h] at herr
      simp [hl] at herr
    · constructor
      · rw [EmulatorSnapshot.restore_to_emulator, h]
        simp [hl]
      · rw [EmulatorSnapshot.restore_to_emulator, h]
        cases hh : snap.cpu_state.halted <;> simp [hh, hl, CPU.halt]

/-- Snapshot with a malformed (truncated) compressed stream for the C5
scenario. -/
def c5Snap : EmulatorSnapshot :=
  { cpu_state := { a := 7, x := 8, y := 9, pc := 10, sp := 11, status := 12,
                   cycles := 13, halted := false },
    memory_dump := [255] }

/-- Target core for the C5 scenario. -/
def c5Cpu : CPU :=
  { a := 5, x := 0, y := 0, pc := 0, sp := 0, status := 0, cycles := 42, halted := false }

/-- Target memory for the C5 scenario. -/
def c5Mem : Memory := fun _ => 1

/-- Witness for C5 (amended) at the concrete scenario. -/
theorem restore_error_state_witness :
    (c5Snap.restore_to_emulator c5Cpu c5Mem).2.2 = .error "Truncated RLE data" ∧
    (c5Snap.restore_to_emulator c5Cpu c5Mem).2.1 = c5Mem ∧
    (c5Snap.restore_to_emulator c5Cpu c5Mem).1.a = 7 := by
  have herr : (c5Snap.restore_to_emulator c5Cpu c5Mem).2.2 = .error "Truncated RLE data" := rfl
  have h := restore_error_state c5Snap c5Cpu c5Mem _ herr
  exact ⟨herr, h.1, by rw [h.2]; rfl⟩

/-- C5 counterexample: the restore of `c5Snap` (register `A = 7`,
truncated stream) into `c5Cpu` (register `A = 5`) fails, yet the target's
accumulator is no longer its pre-call value — the claim that a failed
restore leaves the CPU registers exactly as they were is false. -/
theorem restore_error_state_counterexample :
    (c5Snap.restore_to_emulator c5Cpu c5Mem).2.2 = .error "Truncated RLE data" ∧
    (c5Snap.restore_to_emulator c5Cpu c5Mem).1.a ≠ c5Cpu.a := by
  exact ⟨rfl, by decide⟩

/-! ## Reset (`src/cpu.rs` lines 60-72) -/

/-- `CPU::reset`: load `PC` from the little-endian reset vector at
`0xFFFC..0xFFFD`, zero the registers, set `SP = 0xFD`,
`status = UNUSED_FLAG | INTERRUPT_DISABLE`, `cycles = 0`,
`halted = false`. -/
def CPU.reset (c : CPU) (m : Memory) : CPU :=
  let low := m.read 0xFFFC
  let high := m.read 0xFFFD
  { c with pc := (high <<< 8) ||| low, a := 0, x := 0, y := 0, sp := 0xFD,
           status := UNUSED_FLAG ||| INTERRUPT_DISABLE, cycles := 0, halted := false }

/-- Combining a high byte shifted left by 8 with a low byte below 256 is
the little-endian word value. -/
theorem shiftLeft_or_eq (h l : Nat) (hl : l < 256) : (h <<< 8) ||| l = 256 * h + l := by
  rw [Nat.shiftLeft_eq]
  calc h * 2 ^ 8 ||| l = 2 ^ 8 * h ||| l := by rw [Nat.mul_comm]
    _ = 2 ^ 8 * h + l := (Nat.mul_add_lt_is_or (by omega) h).symm
    _ = 256 * h + l := by norm_num

/-- C8: for every prior CPU state and memory, `reset` yields
`A = X = Y = 0`, `SP = 0xFD`, `status = 0x24`, `cycles = 0`,
`halted = false`, and `PC` equal to the little-endian 16-bit word read
from `0xFFFC` and `0xFFFD`. -/
theorem reset_spec (c : CPU) (m : Memory) (hlow : m.read 0xFFFC < 256) :
    c.reset m =
      { a := 0, x := 0, y := 0, pc := 256 * m.read 0xFFFD + m.read 0xFFFC,
        sp := 0xFD, status := 0x24, cycles := 0, halted := false } := by
  have hpc := shiftLeft_or_eq (m.read 0xFFFD) (m.read 0xFFFC) hlow
  have hst : UNUSED_FLAG ||| INTERRUPT_DISABLE = 0x24 := by decide
  rw [CPU.reset]
  simp only [hpc, hst]

/-- Memory for the C8 witness: reset vector `0xFFFC/D = 00 80`. -/
def c8Mem : Memory := fun a => if a = 0xFFFC then 0 else if a = 0xFFFD then 0x80 else 0

/-- Witness for C8: resetting from the concrete vector lands at `0x8000`
with the documented register file. -/
theorem reset_spec_witness :
    c8Mem.read 0xFFFC < 256 ∧
    CPU.new.reset c8Mem =
      { a := 0, x := 0, y := 0, pc := 0x8000, sp := 0xFD, status := 0x24,
        cycles := 0, halted := false } := by
  refine ⟨by decide, ?_⟩
  rw [reset_spec CPU.new c8Mem (by decide)]
  decide

/-! ## Status flag algebra

`set_flag` sets or clears one mask bit; the masks are the eight distinct
powers of two of `src/cpu.rs` lines 20-27.  The lemmas below extract one
flag from a status byte after a sequence of `set_flag` updates. -/

/-- `x &&& 2^i != 0` reads bit `i`. -/
theorem and_two_pow_bne (st i : Nat) : (st &&& 2 ^ i != 0) = st.testBit i := by
  rw [Nat.and_two_pow]
  cases h : st.testBit i
  · simp
  · have hp : 0 < 2 ^ i := Nat.two_pow_pos i
    simp only [Bool.toNat_true, Nat.one_mul, bne_iff_ne, ne_eq]
    omega

/-- Bit `i` after setting/clearing bit `i` (for a mask below 256). -/
theorem tb_set (st i : Nat) (v : Bool) (hi : i < 8) :
    (if v then st ||| 2 ^ i else st &&& (255 ^^^ 2 ^ i)).testBit i = v := by
  have h255 : (255 : Nat) = 2 ^ 8 - 1 := by norm_num
  cases v
  · rw [if_neg (by simp), Nat.testBit_and, h255, Nat.testBit_xor,
      Nat.testBit_two_pow_sub_one, Nat.testBit_two_pow_self]
    simp [hi]
  · rw [if_pos rfl, Nat.testBit_or, Nat.testBit_two_pow_self]
    simp

/-- Bit `j` is untouched by setting/clearing a different bit `i`. -/
theorem tb_set_other (st i j : Nat) (v : Bool) (hj : j < 8) (hij : i ≠ j) :
    (if v then st ||| 2 ^ i else st &&& (255 ^^^ 2 ^ i)).testBit j = st.testBit j := by
  have h255 : (255 : Nat) = 2 ^ 8 - 1 := by norm_num
  cases v
  · rw [if_neg (by simp), Nat.testBit_and, h255, Nat.testBit_xor,
      Nat.testBit_two_pow_sub_one, Nat.testBit_two_pow_of_ne hij]
    simp [hj]
  · rw [if_pos rfl, Nat.testBit_or, Nat.testBit_two_pow_of_ne hij]
    simp

/-- The status byte after `set_flag`. -/
theorem set_flag_status (c : CPU) (f : Nat) (v : Bool) :
    (c.set_flag f v).status = if v then c.status ||| f else c.status &&& (255 ^^^ f) := by
  cases v <;> simp [CPU.set_flag]

/-- `set_flag` only changes the status byte (accumulator untouched). -/
theorem set_flag_a (c : CPU) (f : Nat) (v : Bool) : (c.set_flag f v).a = c.a := by
  cases v <;> simp [CPU.set_flag]

/-- `get_flag` on a power-of-two mask reads that bit. -/
theorem get_flag_testBit (c : CPU) (i : Nat) :
    c.get_flag (2 ^ i) = c.status.testBit i := by
  rw [CPU.get_flag, and_two_pow_bne]

/-- Reading back the flag just set. -/
theorem get_flag_set_self (c : CPU) (i : Nat) (hi : i < 8) (v : Bool) :
    (c.set_flag (2 ^ i) v).get_flag (2 ^ i) = v := by
  rw [get_flag_testBit, set_flag_status]
  exact tb_set c.status i v hi

/-- Reading a flag other than the one just set. -/
theorem get_flag_set_other (c : CPU) (i j : Nat) (v : Bool) (hj : j < 8) (hij : i ≠ j) :
    (c.set_flag (2 ^ i) v).get_flag (2 ^ j) = c.get_flag (2 ^ j) := by
  rw [get_flag_testBit, get_flag_testBit, set_flag_status]
  exact tb_set_other c.status i j v hj hij

/-! ## ADC (`src/cpu.rs` lines 595-606) -/

/-- `CPU::adc`: binary add with carry.  `result` is computed in `u16`
(sum of two bytes and a carry, at most 511, so no truncation);
`result as u8` is `result % 256`. -/
def CPU.adc (c : CPU) (value : Nat) : CPU :=
  let carry := if c.get_flag CARRY_FLAG then 1 else 0
  let result := c.a + value + carry
  let overflow := (c.a ^^^ result % 256) &&& (value ^^^ result % 256) &&& 0x80 != 0
  let c1 := c.set_flag CARRY_FLAG (decide (result > 255))
  let c2 := c1.set_flag OVERFLOW_FLAG overflow
  let c3 := { c2 with a := result % 256 }
  c3.update_zero_and_negative_flags c3.a

/-- Carry flag survives setting the zero flag. -/
theorem carry_after_zero (c : CPU) (v : Bool) :
    (c.set_flag ZERO_FLAG v).get_flag CARRY_FLAG = c.get_flag CARRY_FLAG :=
  get_flag_set_other c 1 0 v (by omega) (by omega)

/-- Carry flag survives setting the negative flag. -/
theorem carry_after_neg (c : CPU) (v : Bool) :
    (c.set_flag NEGATIVE_FLAG v).get_flag CARRY_FLAG = c.get_flag CARRY_FLAG :=
  get_flag_set_other c 7 0 v (by omega) (by omega)

/-- Carry flag survives setting the overflow flag. -/
theorem carry_after_overflow (c : CPU) (v : Bool) :
    (c.set_flag OVERFLOW_FLAG v).get_flag CARRY_FLAG = c.get_flag CARRY_FLAG :=
  get_flag_set_other c 6 0 v (by omega) (by omega)

/-- Reading back the carry flag just set. -/
theorem carry_after_carry (c : CPU) (v : Bool) :
    (c.set_flag CARRY_FLAG v).get_flag CARRY_FLAG = v :=
  get_flag_set_self c 0 (by omega) v

/-- Overflow flag survives setting the zero flag. -/
theorem overflow_after_zero (c : CPU) (v : Bool) :
    (c.set_flag ZERO_FLAG v).get_flag OVERFLOW_FLAG = c.get_flag OVERFLOW_FLAG :=
  get_flag_set_other c 1 6 v (by omega) (by omega)

/-- Overflow flag survives setting the negative flag. -/
theorem overflow_after_neg (c : CPU) (v : Bool) :
    (c.set_flag NEGATIVE_FLAG v).get_flag OVERFLOW_FLAG = c.get_flag OVERFLOW_FLAG :=
  get_flag_set_other c 7 6 v (by omega) (by omega)

/-- Reading back the overflow flag just set. -/
theorem overflow_after_overflow (c : CPU) (v : Bool) :
    (c.set_flag OVERFLOW_FLAG v).get_flag OVERFLOW_FLAG = v :=
  get_flag_set_self c 6 (by omega) v

/-- Zero flag survives setting the negative flag. -/
theorem zero_after_neg (c : CPU) (v : Bool) :
    (c.set_flag NEGATIVE_FLAG v).get_flag ZERO_FLAG = c.get_flag ZERO_FLAG :=
  get_flag_set_other c 7 1 v (by omega) (by omega)

/-- Reading back the zero flag just set. -/
theorem zero_after_zero (c : CPU) (v : Bool) :
    (c.set_flag ZERO_FLAG v).get_flag ZERO_FLAG = v :=
  get_flag_set_self c 1 (by omega) v

/-- Reading back the negative flag just set. -/
theorem neg_after_neg (c : CPU) (v : Bool) :
    (c.set_flag NEGATIVE_FLAG v).get_flag NEGATIVE_FLAG = v :=
  get_flag_set_self c 7 (by omega) v

/-- `x &&& 0x80 != 0` reads bit 7. -/
theorem and_128_bne (x : Nat) : (x &&& 0x80 != 0) = x.testBit 7 := by
  rw [show (0x80 : Nat) = 2 ^ 7 by norm_num, and_two_pow_bne]

/-- The signed-overflow test is insensitive to reducing the sum modulo
256: only bit 7 of the sum is inspected. -/
theorem overflow_mod_eq (a v r : Nat) :
    ((a ^^^ r % 256) &&& (v ^^^ r % 256) &&& 0x80 != 0) =
      ((a ^^^ r) &&& (v ^^^ r) &&& 0x80 != 0) := by
  have hb : ∀ n : Nat, (n % 256).testBit 7 = n.testBit 7 := fun n => by
    rw [show (256 : Nat) = 2 ^ 8 by norm_num, Nat.testBit_mod_two_pow]
    simp
  rw [and_128_bne, and_128_bne]
  simp [Nat.testBit_and, Nat.testBit_xor, hb]

/-- C6: `ADC` computes `r = A + M + C`, sets the accumulator to
`r & 0xFF` (= `r % 256`), the carry flag to `r > 0xFF`, the overflow flag
to `((A ^ r) & (M ^ r) & 0x80) ≠ 0`, and the zero and negative flags from
the new accumulator value. -/
theorem adc_spec (c : CPU) (value : Nat) (_ha : c.a < 256) (_hv : value < 256) :
    (c.adc value).a = (c.a + value + (if c.get_flag CARRY_FLAG then 1 else 0)) % 256 ∧
    (c.adc value).get_flag CARRY_FLAG =
      decide ((c.a + value + (if c.get_flag CARRY_FLAG then 1 else 0)) > 255) ∧
    (c.adc value).get_flag OVERFLOW_FLAG =
      ((c.a ^^^ (c.a + value + (if c.get_flag CARRY_FLAG then 1 else 0))) &&&
        (value ^^^ (c.a + value + (if c.get_flag CARRY_FLAG then 1 else 0))) &&& 0x80 != 0) ∧
    (c.adc value).get_flag ZERO_FLAG =
      ((c.a + value + (if c.get_flag CARRY_FLAG then 1 else 0)) % 256 == 0) ∧
    (c.adc value).get_flag NEGATIVE_FLAG =
      ((c.a + value + (if c.get_flag CARRY_FLAG then 1 else 0)) % 256 &&& 0x80 != 0) := by
  rw [CPU.adc]
  simp only [CPU.update_zero_and_negative_flags]
  refine ⟨?_, ?_, ?_, ?_, ?_⟩
  · rw [set_flag_a, set_flag_a]
  · rw [carry_after_neg, carry_after_zero]
    show ((c.set_flag CARRY_FLAG _).set_flag OVERFLOW_FLAG _).get_flag CARRY_FLAG = _
    rw [carry_after_overflow, carry_after_carry]
  · rw [overflow_after_neg, overflow_after_zero]
    show ((c.set_flag CARRY_FLAG _).set_flag OVERFLOW_FLAG _).get_flag OVERFLOW_FLAG = _
    rw [overflow_after_overflow, overflow_mod_eq]
  · rw [zero_after_neg]
    show (CPU.set_flag _ ZERO_FLAG _).get_flag ZERO_FLAG = _
    rw [zero_after_zero]
  · show (CPU.set_flag _ NEGATIVE_FLAG _).get_flag NEGATIVE_FLAG = _
    rw [neg_after_neg]

/-- CPU for the C6 witness: `A = 0xFF`, carry clear. -/
def c6Cpu : CPU :=
  { a := 0xFF, x := 0, y := 0, pc := 0, sp := 0, status := 0, cycles := 0, halted := false }

/-- Witness for C6: `A = 0xFF`, operand `0x02`, carry clear: sum `0x101`,
new `A = 0x01`, carry set. -/
theorem adc_spec_witness :
    c6Cpu.a < 256 ∧ (2 : Nat) < 256 ∧
    (c6Cpu.adc 2).a = 1 ∧ (c6Cpu.adc 2).get_flag CARRY_FLAG = true := by
  have h := adc_spec c6Cpu 2 (by decide) (by decide)
  refine ⟨by decide, by decide, ?_, ?_⟩
  · rw [h.1]
    decide
  · rw [h.2.1]
    decide

/-! ## Addressing modes (`src/cpu.rs` lines 333-379)

Each reader returns the operand value and the CPU with `PC` advanced.
`u8` index arithmetic (`wrapping_add`) is `% 256`; `u16` program-counter
arithmetic is `% 65536`.  The source advances past absolute operands with
a plain `self.pc + 1` read (unchecked `u16` addition, which wraps in
release builds); it is modelled as wrapping. -/

/-- `CPU::read_immediate`. -/
def CPU.read_immediate (c : CPU) (m : Memory) : Nat × CPU :=
  (m.read c.pc, { c with pc := (c.pc + 1) % 65536 })

/-- `CPU::read_zero_page`. -/
def CPU.read_zero_page (c : CPU) (m : Memory) : Nat × CPU :=
  let addr := m.read c.pc
  (m.read addr, { c with pc := (c.pc + 1) % 65536 })

/-- `CPU::read_zero_page_x`. -/
def CPU.read_zero_page_x (c : CPU) (m : Memory) : Nat × CPU :=
  let addr := (m.read c.pc + c.x) % 256
  (m.read addr, { c with pc := (c.pc + 1) % 65536 })

/-- `CPU::read_zero_page_y`. -/
def CPU.read_zero_page_y (c : CPU) (m : Memory) : Nat × CPU :=
  let addr := (m.read c.pc + c.y) % 256
  (m.read addr, { c with pc := (c.pc + 1) % 65536 })

/-- `CPU::read_absolute`. -/
def CPU.read_absolute (c : CPU) (m : Memory) : Nat × CPU :=
  let low := m.read c.pc
  let high := m.read ((c.pc + 1) % 65536)
  let addr := (high <<< 8) ||| low
  (m.read addr, { c with pc := (c.pc + 2) % 65536 })

/-- `CPU::read_absolute_x`. -/
def CPU.read_absolute_x (c : CPU) (m : Memory) : Nat × CPU :=
  let low := m.read c.pc
  let high := m.read ((c.pc + 1) % 65536)
  let addr := (((high <<< 8) ||| low) + c.x) % 65536
  (m.read addr, { c with pc := (c.pc + 2) % 65536 })

/-- `CPU::read_absolute_y`. -/
def CPU.read_absolute_y (c : CPU) (m : Memory) : Nat × CPU :=
  let low := m.read c.pc
  let high := m.read ((c.pc + 1) % 65536)
  let addr := (((high <<< 8) ||| low) + c.y) % 65536
  (m.read addr, { c with pc := (c.pc + 2) % 65536 })

/-- The `(zp,X)` pointer resolution shared by the `*_indexed_indirect`
handlers: pointer `(operand + X) mod 256`, then a little-endian word read
at `ptr`/`ptr+1` (the source adds 1 on the `u16` pointer, so a pointer at
`0xFF` reads its high byte from `0x0100`). -/
def CPU.read_indexed_indirect (c : CPU) (m : Memory) : Nat × CPU :=
  let ptr := (m.read c.pc + c.x) % 256
  let c1 := { c with pc := (c.pc + 1) % 65536 }
  let low := m.read ptr
  let high := m.read ((ptr + 1) % 65536)
  ((high <<< 8) ||| low, c1)

/-- The `(zp),Y` address resolution shared by the `*_indirect_indexed`
handlers: base word read at `operand`/`operand+1`, plus `Y` modulo
65536. -/
def CPU.read_indirect_indexed (c : CPU) (m : Memory) : Nat × CPU :=
  let ptr := m.read c.pc
  let c1 := { c with pc := (c.pc + 1) % 65536 }
  let low := m.read ptr
  let high := m.read ((ptr + 1) % 65536)
  ((((high <<< 8) ||| low) + c.y) % 65536, c1)

/-! ## Instruction handlers (`src/cpu.rs` lines 382-1188)

Each handler is one `fn` of the source; handlers that only read memory
still return the (unchanged) memory so that all handlers share one
signature for the dispatch table. -/

/-- `CPU::lda_immediate`. -/
def CPU.lda_immediate (c : CPU) (m : Memory) : CPU × Memory :=
  let (v, c1) := c.read_immediate m
  (({ c1 with a := v }).update_zero_and_negative_flags v, m)

/-- `CPU::lda_zero_page`. -/
def CPU.lda_zero_page (c : CPU) (m : Memory) : CPU × Memory :=
  let (v, c1) := c.read_zero_page m
  (({ c1 with a := v }).update_zero_and_negative_flags v, m)

/-- `CPU::lda_zero_page_x`. -/
def CPU.lda_zero_page_x (c : CPU) (m : Memory) : CPU × Memory :=
  let (v, c1) := c.read_zero_page_x m
  (({ c1 with a := v }).update_zero_and_negative_flags v, m)

/-- `CPU::lda_absolute`. -/
def CPU.lda_absolute (c : CPU) (m : Memory) : CPU × Memory :=
  let (v, c1) := c.read_absolute m
  (({ c1 with a := v }).update_zero_and_negative_flags v, m)

/-- `CPU::lda_absolute_x`. -/
def CPU.lda_absolute_x (c : CPU) (m : Memory) : CPU × Memory :=
  let (v, c1) := c.read_absolute_x m
  (({ c1 with a := v }).update_zero_and_negative_flags v, m)

/-- `CPU::lda_absolute_y`. -/
def CPU.lda_absolute_y (c : CPU) (m : Memory) : CPU × Memory :=
  let (v, c1) := c.read_absolute_y m
  (({ c1 with a := v }).update_zero_and_negative_flags v, m)

/-- `CPU::lda_indexed_indirect`. -/
def CPU.lda_indexed_indirect (c : CPU) (m : Memory) : CPU × Memory :=
  let (addr, c1) := c.read_indexed_indirect m
  let v := m.read addr
  (({ c1 with a := v }).update_zero_and_negative_flags v, m)

/-- `CPU::lda_indirect_indexed`. -/
def CPU.lda_indirect_indexed (c : CPU) (m : Memory) : CPU × Memory :=
  let (addr, c1) := c.read_indirect_indexed m
  let v := m.read addr
  (({ c1 with a := v }).update_zero_and_negative_flags v, m)

/-- `CPU::ldx_immediate`. -/
def CPU.ldx_immediate (c : CPU) (m : Memory) : CPU × Memory :=
  let (v, c1) := c.read_immediate m
  (({ c1 with x := v }).update_zero_and_negative_flags v, m)

/-- `CPU::ldx_zero_page`. -/
def CPU.ldx_zero_page (c : CPU) (m : Memory) : CPU × Memory :=
  let (v, c1) := c.read_zero_page m
  (({ c1 with x := v }).update_zero_and_negative_flags v, m)

/-- `CPU::ldx_zero_page_y`. -/
def CPU.ldx_zero_page_y (c : CPU) (m : Memory) : CPU × Memory :=
  let (v, c1) := c.read_zero_page_y m
  (({ c1 with x := v }).update_zero_and_negative_flags v, m)

/-- `CPU::ldx_absolute`. -/
def CPU.ldx_absolute (c : CPU) (m : Memory) : CPU × Memory :=
  let (v, c1) := c.read_absolute m
  (({ c1 with x := v }).update_zero_and_negative_flags v, m)

/-- `CPU::ldx_absolute_y`. -/
def CPU.ldx_absolute_y (c : CPU) (m : Memory) : CPU × Memory :=
  let (v, c1) := c.read_absolute_y m
  (({ c1 with x := v }).update_zero_and_negative_flags v, m)

/-- `CPU::ldy_immediate`. -/
def CPU.ldy_immediate (c : CPU) (m : Memory) : CPU × Memory :=
  let (v, c1) := c.read_immediate m
  (({ c1 with y := v }).update_zero_and_negative_flags v, m)

/-- `CPU::ldy_zero_page`. -/
def CPU.ldy_zero_page (c : CPU) (m : Memory) : CPU × Memory :=
  let (v, c1) := c.read_zero_page m
  (({ c1 with y := v }).update_zero_and_negative_flags v, m)

/-- `CPU::ldy_zero_page_x`. -/
def CPU.ldy_zero_page_x (c : CPU) (m : Memory) : CPU × Memory :=
  let (v, c1) := c.read_zero_page_x m
  (({ c1 with y := v }).update_zero_and_negative_flags v, m)

/-- `CPU::ldy_absolute`. -/
def CPU.ldy_absolute (c : CPU) (m : Memory) : CPU × Memory :=
  let (v, c1) := c.read_absolute m
  (({ c1 with y := v }).update_zero_and_negative_flags v, m)

/-- `CPU::ldy_absolute_x`. -/
def CPU.ldy_absolute_x (c : CPU) (m : Memory) : CPU × Memory :=
  let (v, c1) := c.read_absolute_x m
  (({ c1 with y := v }).update_zero_and_negative_flags v, m)

/-- `CPU::sta_zero_page`. -/
def CPU.sta_zero_page (c : CPU) (m : Memory) : CPU × Memory :=
  let addr := m.read c.pc
  ({ c with pc := (c.pc + 1) % 65536 }, m.write addr c.a)

/-- `CPU::sta_zero_page_x`. -/
def CPU.sta_zero_page_x (c : CPU) (m : Memory) : CPU × Memory :=
  let addr := (m.read c.pc + c.x) % 256
  ({ c with pc := (c.pc + 1) % 65536 }, m.write addr c.a)

/-- `CPU::sta_absolute`. -/
def CPU.sta_absolute (c : CPU) (m : Memory) : CPU × Memory :=
  let low := m.read c.pc
  let high := m.read ((c.pc + 1) % 65536)
  let addr := (high <<< 8) ||| low
  ({ c with pc := (c.pc + 2) % 65536 }, m.write addr c.a)

/-- `CPU::sta_absolute_x`. -/
def CPU.sta_absolute_x (c : CPU) (m : Memory) : CPU × Memory :=
  let low := m.read c.pc
  let high := m.read ((c.pc + 1) % 65536)
  let addr := (((high <<< 8) ||| low) + c.x) % 65536
  ({ c with pc := (c.pc + 2) % 65536 }, m.write addr c.a)

/-- `CPU::sta_absolute_y`. -/
def CPU.sta_absolute_y (c : CPU) (m : Memory) : CPU × Memory :=
  let low := m.read c.pc
  let high := m.read ((c.pc + 1) % 65536)
  let addr := (((high <<< 8) ||| low) + c.y) % 65536
  ({ c with pc := (c.pc + 2) % 65536 }, m.write addr c.a)

/-- `CPU::sta_indexed_indirect`. -/
def CPU.sta_indexed_indirect (c : CPU) (m : Memory) : CPU × Memory :=
  let (addr, c1) := c.read_indexed_indirect m
  (c1, m.write addr c.a)

/-- `CPU::sta_indirect_indexed`. -/
def CPU.sta_indirect_indexed (c : CPU) (m : Memory) : CPU × Memory :=
  let (addr, c1) := c.read_indirect_indexed m
  (c1, m.write addr c.a)

/-- `CPU::brk`: set the halted latch (no stack push, no vector fetch). -/
def CPU.brk (c : CPU) (m : Memory) : CPU × Memory := ({ c with halted := true }, m)

/-- `CPU::nop`. -/
def CPU.nop (c : CPU) (m : Memory) : CPU × Memory := (c, m)

/-- `CPU::adc_immediate`. -/
def CPU.adc_immediate (c : CPU) (m : Memory) : CPU × Memory :=
  let (v, c1) := c.read_immediate m
  (c1.adc v, m)

/-- `CPU::adc_zero_page`. -/
def CPU.adc_zero_page (c : CPU) (m : Memory) : CPU × Memory :=
  let (v, c1) := c.read_zero_page m
  (c1.adc v, m)

/-- `CPU::adc_zero_page_x`. -/
def CPU.adc_zero_page_x (c : CPU) (m : Memory) : CPU × Memory :=
  let (v, c1) := c.read_zero_page_x m
  (c1.adc v, m)

/-- `CPU::adc_absolute`. -/
def CPU.adc_absolute (c : CPU) (m : Memory) : CPU × Memory :=
  let (v, c1) := c.read_absolute m
  (c1.adc v, m)

/-- `CPU::adc_absolute_x`. -/
def CPU.adc_absolute_x (c : CPU) (m : Memory) : CPU × Memory :=
  let (v, c1) := c.read_absolute_x m
  (c1.adc v, m)

/-- `CPU::adc_absolute_y`. -/
def CPU.adc_absolute_y (c : CPU) (m : Memory) : CPU × Memory :=
  let (v, c1) := c.read_absolute_y m
  (c1.adc v, m)

/-- `CPU::adc_indexed_indirect`. -/
def CPU.adc_indexed_indirect (c : CPU) (m : Memory) : CPU × Memory :=
  let (addr, c1) := c.read_indexed_indirect m
  (c1.adc (m.read addr), m)

/-- `CPU::adc_indirect_indexed`. -/
def CPU.adc_indirect_indexed (c : CPU) (m : Memory) : CPU × Memory :=
  let (addr, c1) := c.read_indirect_indexed m
  (c1.adc (m.read addr), m)

/-- `CPU::sbc`: binary subtract with borrow.  The source computes in
`i16`; `result` may be negative, so its two's-complement 16-bit pattern
`rPat` (always below 65536) stands in for the raw `i16` bits in the
overflow test and the `as u8` truncation. -/
def CPU.sbc (c : CPU) (value : Nat) : CPU :=
  let carry := if c.get_flag CARRY_FLAG then 0 else 1
  let result : Int := (c.a : Int) - value - carry
  let rPat : Nat := (result % 65536).toNat
  let overflow := (c.a ^^^ rPat) &&& (c.a ^^^ value) &&& 0x80 != 0
  let c1 := c.set_flag CARRY_FLAG (decide (result ≥ 0))
  let c2 := c1.set_flag OVERFLOW_FLAG overflow
  let c3 := { c2 with a := rPat % 256 }
  c3.update_zero_and_negative_flags c3.a

/-- `CPU::sbc_immediate`. -/
def CPU.sbc_immediate (c : CPU) (m : Memory) : CPU × Memory :=
  let (v, c1) := c.read_immediate m
  (c1.sbc v, m)

/-- `CPU::sbc_zero_page`. -/
def CPU.sbc_zero_page (c : CPU) (m : Memory) : CPU × Memory :=
  let (v, c1) := c.read_zero_page m
  (c1.sbc v, m)

/-- `CPU::sbc_zero_page_x`. -/
def CPU.sbc_zero_page_x (c : CPU) (m : Memory) : CPU × Memory :=
  let (v, c1) := c.read_zero_page_x m
  (c1.sbc v, m)

/-- `CPU::sbc_absolute`. -/
def CPU.sbc_absolute (c : CPU) (m : Memory) : CPU × Memory :=
  let (v, c1) := c.read_absolute m
  (c1.sbc v, m)

/-- `CPU::sbc_absolute_x`. -/
def CPU.sbc_absolute_x (c : CPU) (m : Memory) : CPU × Memory :=
  let (v, c1) := c.read_absolute_x m
  (c1.sbc v, m)

/-- `CPU::sbc_absolute_y`. -/
def CPU.sbc_absolute_y (c : CPU) (m : Memory) : CPU × Memory :=
  let (v, c1) := c.read_absolute_y m
  (c1.sbc v, m)

/-- `CPU::sbc_indexed_indirect`. -/
def CPU.sbc_indexed_indirect (c : CPU) (m : Memory) : CPU × Memory :=
  let (addr, c1) := c.read_indexed_indirect m
  (c1.sbc (m.read addr), m)

/-- `CPU::sbc_indirect_indexed`. -/
def CPU.sbc_indirect_indexed (c : CPU) (m : Memory) : CPU × Memory :=
  let (addr, c1) := c.read_indirect_indexed m
  (c1.sbc (m.read addr), m)

/-- `CPU::compare`: `register.wrapping_sub(value)` (`u8`), carry set iff
`register ≥ value`, `N`/`Z` from the difference. -/
def CPU.compare (c : CPU) (register value : Nat) : CPU :=
  let result := (register + 256 - value % 256) % 256
  let c1 := c.set_flag CARRY_FLAG (decide (register ≥ value))
  c1.update_zero_and_negative_flags result

/-- `CPU::cmp_immediate`. -/
def CPU.cmp_immediate (c : CPU) (m : Memory) : CPU × Memory :=
  let (v, c1) := c.read_immediate m
  (c1.compare c.a v, m)

/-- `CPU::cmp_zero_page`. -/
def CPU.cmp_zero_page (c : CPU) (m : Memory) : CPU × Memory :=
  let (v, c1) := c.read_zero_page m
  (c1.compare c.a v, m)

/-- `CPU::cmp_zero_page_x`. -/
def CPU.cmp_zero_page_x (c : CPU) (m : Memory) : CPU × Memory :=
  let (v, c1) := c.read_zero_page_x m
  (c1.compare c.a v, m)

/-- `CPU::cmp_absolute`. -/
def CPU.cmp_absolute (c : CPU) (m : Memory) : CPU × Memory :=
  let (v, c1) := c.read_absolute m
  (c1.compare c.a v, m)

/-- `CPU::cmp_absolute_x`. -/
def CPU.cmp_absolute_x (c : CPU) (m : Memory) : CPU × Memory :=
  let (v, c1) := c.read_absolute_x m
  (c1.compare c.a v, m)

/-- `CPU::cmp_absolute_y`. -/
def CPU.cmp_absolute_y (c : CPU) (m : Memory) : CPU × Memory :=
  let (v, c1) := c.read_absolute_y m
  (c1.compare c.a v, m)

/-- `CPU::cmp_indexed_indirect`. -/
def CPU.cmp_indexed_indirect (c : CPU) (m : Memory) : CPU × Memory :=
  let (addr, c1) := c.read_indexed_indirect m
  (c1.compare c.a (m.read addr), m)

/-- `CPU::cmp_indirect_indexed`. -/
def CPU.cmp_indirect_indexed (c : CPU) (m : Memory) : CPU × Memory :=
  let (addr, c1) := c.read_indirect_indexed m
  (c1.compare c.a (m.read addr), m)

/-- `CPU::cpx_immediate`. -/
def CPU.cpx_immediate (c : CPU) (m : Memory) : CPU × Memory :=
  let (v, c1) := c.read_immediate m
  (c1.compare c.x v, m)

/-- `CPU::cpx_zero_page`. -/
def CPU.cpx_zero_page (c : CPU) (m : Memory) : CPU × Memory :=
  let (v, c1) := c.read_zero_page m
  (c1.compare c.x v, m)

/-- `CPU::cpx_absolute`. -/
def CPU.cpx_absolute (c : CPU) (m : Memory) : CPU × Memory :=
  let (v, c1) := c.read_absolute m
  (c1.compare c.x v, m)

/-- `CPU::cpy_immediate`. -/
def CPU.cpy_immediate (c : CPU) (m : Memory) : CPU × Memory :=
  let (v, c1) := c.read_immediate m
  (c1.compare c.y v, m)

/-- `CPU::cpy_zero_page`. -/
def CPU.cpy_zero_page (c : CPU) (m : Memory) : CPU × Memory :=
  let (v, c1) := c.read_zero_page m
  (c1.compare c.y v, m)

/-- `CPU::cpy_absolute`. -/
def CPU.cpy_absolute (c : CPU) (m : Memory) : CPU × Memory :=
  let (v, c1) := c.read_absolute m
  (c1.compare c.y v, m)

/-- `CPU::and_immediate`. -/
def CPU.and_immediate (c : CPU) (m : Memory) : CPU × Memory :=
  let (v, c1) := c.read_immediate m
  (({ c1 with a := c1.a &&& v }).update_zero_and_negative_flags (c1.a &&& v), m)

/-- `CPU::and_zero_page`. -/
def CPU.and_zero_page (c : CPU) (m : Memory) : CPU × Memory :=
  let (v, c1) := c.read_zero_page m
  (({ c1 with a := c1.a &&& v }).update_zero_and_negative_flags (c1.a &&& v), m)

/-- `CPU::and_zero_page_x`. -/
def CPU.and_zero_page_x (c : CPU) (m : Memory) : CPU × Memory :=
  let (v, c1) := c.read_zero_page_x m
  (({ c1 with a := c1.a &&& v }).update_zero_and_negative_flags (c1.a &&& v), m)

/-- `CPU::and_absolute`. -/
def CPU.and_absolute (c : CPU) (m : Memory) : CPU × Memory :=
  let (v, c1) := c.read_absolute m
  (({ c1 with a := c1.a &&& v }).update_zero_and_negative_flags (c1.a &&& v), m)

/-- `CPU::and_absolute_x`. -/
def CPU.and_absolute_x (c : CPU) (m : Memory) : CPU × Memory :=
  let (v, c1) := c.read_absolute_x m
  (({ c1 with a := c1.a &&& v }).update_zero_and_negative_flags (c1.a &&& v), m)

/-- `CPU::and_absolute_y`. -/
def CPU.and_absolute_y (c : CPU) (m : Memory) : CPU × Memory :=
  let (v, c1) := c.read_absolute_y m
  (({ c1 with a := c1.a &&& v }).update_zero_and_negative_flags (c1.a &&& v), m)

/-- `CPU::and_indexed_indirect`. -/
def CPU.and_indexed_indirect (c : CPU) (m : Memory) : CPU × Memory :=
  let (addr, c1) := c.read_indexed_indirect m
  let v := m.read addr
  (({ c1 with a := c1.a &&& v }).update_zero_and_negative_flags (c1.a &&& v), m)

/-- `CPU::and_indirect_indexed`. -/
def CPU.and_indirect_indexed (c : CPU) (m : Memory) : CPU × Memory :=
  let (addr, c1) := c.read_indirect_indexed m
  let v := m.read addr
  (({ c1 with a := c1.a &&& v }).update_zero_and_negative_flags (c1.a &&& v), m)

/-- `CPU::ora_immediate`. -/
def CPU.ora_immediate (c : CPU) (m : Memory) : CPU × Memory :=
  let (v, c1) := c.read_immediate m
  (({ c1 with a := c1.a ||| v }).update_zero_and_negative_flags (c1.a ||| v), m)

/-- `CPU::ora_zero_page`. -/
def CPU.ora_zero_page (c : CPU) (m : Memory) : CPU × Memory :=
  let (v, c1) := c.read_zero_page m
  (({ c1 with a := c1.a ||| v }).update_zero_and_negative_flags (c1.a ||| v), m)

/-- `CPU::ora_zero_page_x`. -/
def CPU.ora_zero_page_x (c : CPU) (m : Memory) : CPU × Memory :=
  let (v, c1) := c.read_zero_page_x m
  (({ c1 with a := c1.a ||| v }).update_zero_and_negative_flags (c1.a ||| v), m)

/-- `CPU::ora_absolute`. -/
def CPU.ora_absolute (c : CPU) (m : Memory) : CPU × Memory :=
  let (v, c1) := c.read_absolute m
  (({ c1 with a := c1.a ||| v }).update_zero_and_negative_flags (c1.a ||| v), m)

/-- `CPU::ora_absolute_x`. -/
def CPU.ora_absolute_x (c : CPU) (m : Memory) : CPU × Memory :=
  let (v, c1) := c.read_absolute_x m
  (({ c1 with a := c1.a ||| v }).update_zero_and_negative_flags (c1.a ||| v), m)

/-- `CPU::ora_absolute_y`. -/
def CPU.ora_absolute_y (c : CPU) (m : Memory) : CPU × Memory :=
  let (v, c1) := c.read_absolute_y m
  (({ c1 with a := c1.a ||| v }).update_zero_and_negative_flags (c1.a ||| v), m)

/-- `CPU::ora_indexed_indirect`. -/
def CPU.ora_indexed_indirect (c : CPU) (m : Memory) : CPU × Memory :=
  let (addr, c1) := c.read_indexed_indirect m
  let v := m.read addr
  (({ c1 with a := c1.a ||| v }).update_zero_and_negative_flags (c1.a ||| v), m)

/-- `CPU::ora_indirect_indexed`. -/
def CPU.ora_indirect_indexed (c : CPU) (m : Memory) : CPU × Memory :=
  let (addr, c1) := c.read_indirect_indexed m
  let v := m.read addr
  (({ c1 with a := c1.a ||| v }).update_zero_and_negative_flags (c1.a ||| v), m)

/-- `CPU::eor_immediate`. -/
def CPU.eor_immediate (c : CPU) (m : Memory) : CPU × Memory :=
  let (v, c1) := c.read_immediate m
  (({ c1 with a := c1.a ^^^ v }).update_zero_and_negative_flags (c1.a ^^^ v), m)

/-- `CPU::eor_zero_page`. -/
def CPU.eor_zero_page (c : CPU) (m : Memory) : CPU × Memory :=
  let (v, c1) := c.read_zero_page m
  (({ c1 with a := c1.a ^^^ v }).update_zero_and_negative_flags (c1.a ^^^ v), m)

/-- `CPU::eor_zero_page_x`. -/
def CPU.eor_zero_page_x (c : CPU) (m : Memory) : CPU × Memory :=
  let (v, c1) := c.read_zero_page_x m
  (({ c1 with a := c1.a ^^^ v }).update_zero_and_negative_flags (c1.a ^^^ v), m)

/-- `CPU::eor_absolute`. -/
def CPU.eor_absolute (c : CPU) (m : Memory) : CPU × Memory :=
  let (v, c1) := c.read_absolute m
  (({ c1 with a := c1.a ^^^ v }).update_zero_and_negative_flags (c1.a ^^^ v), m)

/-- `CPU::eor_absolute_x`. -/
def CPU.eor_absolute_x (c : CPU) (m : Memory) : CPU × Memory :=
  let (v, c1) := c.read_absolute_x m
  (({ c1 with a := c1.a ^^^ v }).update_zero_and_negative_flags (c1.a ^^^ v), m)

/-- `CPU::eor_absolute_y`. -/
def CPU.eor_absolute_y (c : CPU) (m : Memory) : CPU × Memory :=
  let (v, c1) := c.read_absolute_y m
  (({ c1 with a := c1.a ^^^ v }).update_zero_and_negative_flags (c1.a ^^^ v), m)

/-- `CPU::eor_indexed_indirect`. -/
def CPU.eor_indexed_indirect (c : CPU) (m : Memory) : CPU × Memory :=
  let (addr, c1) := c.read_indexed_indirect m
  let v := m.read addr
  (({ c1 with a := c1.a ^^^ v }).update_zero_and_negative_flags (c1.a ^^^ v), m)

/-- `CPU::eor_indirect_indexed`. -/
def CPU.eor_indirect_indexed (c : CPU) (m : Memory) : CPU × Memory :=
  let (addr, c1) := c.read_indirect_indexed m
  let v := m.read addr
  (({ c1 with a := c1.a ^^^ v }).update_zero_and_negative_flags (c1.a ^^^ v), m)

/-- `CPU::inc_zero_page`. -/
def CPU.inc_zero_page (c : CPU) (m : Memory) : CPU × Memory :=
  let addr := m.read c.pc
  let c1 := { c with pc := (c.pc + 1) % 65536 }
  let value := (m.read addr + 1) % 256
  (c1.update_zero_and_negative_flags value, m.write addr value)

/-- `CPU::inc_zero_page_x`. -/
def CPU.inc_zero_page_x (c : CPU) (m : Memory) : CPU × Memory :=
  let addr := (m.read c.pc + c.x) % 256
  let c1 := { c with pc := (c.pc + 1) % 65536 }
  let value := (m.read addr + 1) % 256
  (c1.update_zero_and_negative_flags value, m.write addr value)

/-- `CPU::inc_absolute`. -/
def CPU.inc_absolute (c : CPU) (m : Memory) : CPU × Memory :=
  let low := m.read c.pc
  let high := m.read ((c.pc + 1) % 65536)
  let addr := (high <<< 8) ||| low
  let c1 := { c with pc := (c.pc + 2) % 65536 }
  let value := (m.read addr + 1) % 256
  (c1.update_zero_and_negative_flags value, m.write addr value)

/-- `CPU::inc_absolute_x`. -/
def CPU.inc_absolute_x (c : CPU) (m : Memory) : CPU × Memory :=
  let low := m.read c.pc
  let high := m.read ((c.pc + 1) % 65536)
  let addr := (((high <<< 8) ||| low) + c.x) % 65536
  let c1 := { c with pc := (c.pc + 2) % 65536 }
  let value := (m.read addr + 1) % 256
  (c1.update_zero_and_negative_flags value, m.write addr value)

/-- `CPU::dec_zero_page` (`wrapping_sub(1)` on `u8` is `+ 255 mod 256`). -/
def CPU.dec_zero_page (c : CPU) (m : Memory) : CPU × Memory :=
  let addr := m.read c.pc
  let c1 := { c with pc := (c.pc + 1) % 65536 }
  let value := (m.read addr + 255) % 256
  (c1.update_zero_and_negative_flags value, m.write addr value)

/-- `CPU::dec_zero_page_x`. -/
def CPU.dec_zero_page_x (c : CPU) (m : Memory) : CPU × Memory :=
  let addr := (m.read c.pc + c.x) % 256
  let c1 := { c with pc := (c.pc + 1) % 65536 }
  let value := (m.read addr + 255) % 256
  (c1.update_zero_and_negative_flags value, m.write addr value)

/-- `CPU::dec_absolute`. -/
def CPU.dec_absolute (c : CPU) (m : Memory) : CPU × Memory :=
  let low := m.read c.pc
  let high := m.read ((c.pc + 1) % 65536)
  let addr := (high <<< 8) ||| low
  let c1 := { c with pc := (c.pc + 2) % 65536 }
  let value := (m.read addr + 255) % 256
  (c1.update_zero_and_negative_flags value, m.write addr value)

/-- `CPU::dec_absolute_x`. -/
def CPU.dec_absolute_x (c : CPU) (m : Memory) : CPU × Memory :=
  let low := m.read c.pc
  let high := m.read ((c.pc + 1) % 65536)
  let addr := (((high <<< 8) ||| low) + c.x) % 65536
  let c1 := { c with pc := (c.pc + 2) % 65536 }
  let value := (m.read addr + 255) % 256
  (c1.update_zero_and_negative_flags value, m.write addr value)

/-- `CPU::inx`. -/
def CPU.inx (c : CPU) (m : Memory) : CPU × Memory :=
  (({ c with x := (c.x + 1) % 256 }).update_zero_and_negative_flags ((c.x + 1) % 256), m)

/-- `CPU::iny`. -/
def CPU.iny (c : CPU) (m : Memory) : CPU × Memory :=
  (({ c with y := (c.y + 1) % 256 }).update_zero_and_negative_flags ((c.y + 1) % 256), m)

/-- `CPU::dex`. -/
def CPU.dex (c : CPU) (m : Memory) : CPU × Memory :=
  (({ c with x := (c.x + 255) % 256 }).update_zero_and_negative_flags ((c.x + 255) % 256), m)

/-- `CPU::dey`. -/
def CPU.dey (c : CPU) (m : Memory) : CPU × Memory :=
  (({ c with y := (c.y + 255) % 256 }).update_zero_and_negative_flags ((c.y + 255) % 256), m)

/-- `CPU::tax`. -/
def CPU.tax (c : CPU) (m : Memory) : CPU × Memory :=
  (({ c with x := c.a }).update_zero_and_negative_flags c.a, m)

/-- `CPU::tay`. -/
def CPU.tay (c : CPU) (m : Memory) : CPU × Memory :=
  (({ c with y := c.a }).update_zero_and_negative_flags c.a, m)

/-- `CPU::txa`. -/
def CPU.txa (c : CPU) (m : Memory) : CPU × Memory :=
  (({ c with a := c.x }).update_zero_and_negative_flags c.x, m)

/-- `CPU::tya`. -/
def CPU.tya (c : CPU) (m : Memory) : CPU × Memory :=
  (({ c with a := c.y }).update_zero_and_negative_flags c.y, m)

/-- `CPU::tsx`. -/
def CPU.tsx (c : CPU) (m : Memory) : CPU × Memory :=
  (({ c with x := c.sp }).update_zero_and_negative_flags c.sp, m)

/-- `CPU::txs` (no flags). -/
def CPU.txs (c : CPU) (m : Memory) : CPU × Memory := ({ c with sp := c.x }, m)

/-- `CPU::jmp_absolute`. -/
def CPU.jmp_absolute (c : CPU) (m : Memory) : CPU × Memory :=
  let low := m.read c.pc
  let high := m.read ((c.pc + 1) % 65536)
  ({ c with pc := (high <<< 8) ||| low }, m)

/-- `CPU::jmp_indirect` (`src/cpu.rs` lines 1063-1077): when the pointer
sits at the end of a page (`ptr & 0xFF == 0xFF`), the target's high byte
is read from the start of the same page (`ptr & 0xFF00`), reproducing the
6502 page-wrap bug; otherwise it is read from `ptr + 1`. -/
def CPU.jmp_indirect (c : CPU) (m : Memory) : CPU × Memory :=
  let ptr_low := m.read c.pc
  let ptr_high := m.read ((c.pc + 1) % 65536)
  let ptr := (ptr_high <<< 8) ||| ptr_low
  let low := m.read ptr
  let high := if ptr &&& 0xFF = 0xFF then m.read (ptr &&& 0xFF00)
              else m.read ((ptr + 1) % 65536)
  ({ c with pc := (high <<< 8) ||| low }, m)

/-- `CPU::push`: write at `0x100 + SP`, then decrement SP (wrapping). -/
def CPU.push (c : CPU) (m : Memory) (value : Nat) : CPU × Memory :=
  ({ c with sp := (c.sp + 255) % 256 }, m.write (0x100 + c.sp) value)

/-- `CPU::pop`: increment SP (wrapping), then read at `0x100 + SP`. -/
def CPU.pop (c : CPU) (m : Memory) : Nat × CPU :=
  let sp1 := (c.sp + 1) % 256
  (m.read (0x100 + sp1), { c with sp := sp1 })

/-- `CPU::push_u16`: high byte first, then low byte. -/
def CPU.push_u16 (c : CPU) (m : Memory) (value : Nat) : CPU × Memory :=
  let (c1, m1) := c.push m ((value >>> 8) % 256)
  c1.push m1 (value &&& 0xFF)

/-- `CPU::pop_u16`: low byte first, then high byte. -/
def CPU.pop_u16 (c : CPU) (m : Memory) : Nat × CPU :=
  let (low, c1) := c.pop m
  let (high, c2) := c1.pop m
  ((high <<< 8) ||| low, c2)

/-- `CPU::jsr`: push the address of the last operand byte, then jump. -/
def CPU.jsr (c : CPU) (m : Memory) : CPU × Memory :=
  let return_addr := (c.pc + 1) % 65536
  let (c1, m1) := c.push_u16 m return_addr
  let low := m1.read c1.pc
  let high := m1.read ((c1.pc + 1) % 65536)
  ({ c1 with pc := (high <<< 8) ||| low }, m1)

/-- `CPU::rts`. -/
def CPU.rts (c : CPU) (m : Memory) : CPU × Memory :=
  let (v, c1) := c.pop_u16 m
  ({ c1 with pc := (v + 1) % 65536 }, m)

/-- `CPU::clc`. -/
def CPU.clc (c : CPU) (m : Memory) : CPU × Memory := (c.set_flag CARRY_FLAG false, m)

/-- `CPU::sec`. -/
def CPU.sec (c : CPU) (m : Memory) : CPU × Memory := (c.set_flag CARRY_FLAG true, m)

/-- `CPU::cli`. -/
def CPU.cli (c : CPU) (m : Memory) : CPU × Memory := (c.set_flag INTERRUPT_DISABLE false, m)

/-- `CPU::sei`. -/
def CPU.sei (c : CPU) (m : Memory) : CPU × Memory := (c.set_flag INTERRUPT_DISABLE true, m)

/-- `CPU::cld`. -/
def CPU.cld (c : CPU) (m : Memory) : CPU × Memory := (c.set_flag DECIMAL_MODE false, m)

/-- `CPU::sed`. -/
def CPU.sed (c : CPU) (m : Memory) : CPU × Memory := (c.set_flag DECIMAL_MODE true, m)

/-- `CPU::clv`. -/
def CPU.clv (c : CPU) (m : Memory) : CPU × Memory := (c.set_flag OVERFLOW_FLAG false, m)

/-- `CPU::branch_if`: consume the signed 8-bit displacement, then add it
to the post-operand `PC` when the condition holds (`offset as i8 >= 0`
is `offset < 128`; the negated negative offset is `256 - offset`). -/
def CPU.branch_if (c : CPU) (m : Memory) (condition : Bool) : CPU :=
  let offset := m.read c.pc
  let c1 := { c with pc := (c.pc + 1) % 65536 }
  if condition then
    { c1 with pc := if offset < 128 then (c1.pc + offset) % 65536
                    else (c1.pc + 65536 - (256 - offset)) % 65536 }
  else c1

/-- `CPU::bcc`. -/
def CPU.bcc (c : CPU) (m : Memory) : CPU × Memory :=
  (c.branch_if m (!c.get_flag CARRY_FLAG), m)

/-- `CPU::bcs`. -/
def CPU.bcs (c : CPU) (m : Memory) : CPU × Memory :=
  (c.branch_if m (c.get_flag CARRY_FLAG), m)

/-- `CPU::beq`. -/
def CPU.beq (c : CPU) (m : Memory) : CPU × Memory :=
  (c.branch_if m (c.get_flag ZERO_FLAG), m)

/-- `CPU::bne`. -/
def CPU.bne (c : CPU) (m : Memory) : CPU × Memory :=
  (c.branch_if m (!c.get_flag ZERO_FLAG), m)

/-- `CPU::bmi`. -/
def CPU.bmi (c : CPU) (m : Memory) : CPU × Memory :=
  (c.branch_if m (c.get_flag NEGATIVE_FLAG), m)

/-- `CPU::bpl`. -/
def CPU.bpl (c : CPU) (m : Memory) : CPU × Memory :=
  (c.branch_if m (!c.get_flag NEGATIVE_FLAG), m)

/-- `CPU::bvc`. -/
def CPU.bvc (c : CPU) (m : Memory) : CPU × Memory :=
  (c.branch_if m (!c.get_flag OVERFLOW_FLAG), m)

/-- `CPU::bvs`. -/
def CPU.bvs (c : CPU) (m : Memory) : CPU × Memory :=
  (c.branch_if m (c.get_flag OVERFLOW_FLAG), m)

/-- The opcode dispatch of `CPU::step` (`src/cpu.rs` lines 85-296): the
recognized opcodes and their handlers, in the source's order; every
unlisted opcode falls through to the `panic!("Unknown opcode ...")` arm,
modelled as `none`. -/
def decode (opcode : Nat) : Option (CPU → Memory → CPU × Memory) :=
  match opcode with
  | 0xA9 => some CPU.lda_immediate
  | 0xA5 => some CPU.lda_zero_page
  | 0xB5 => some CPU.lda_zero_page_x
  | 0xAD => some CPU.lda_absolute
  | 0xBD => some CPU.lda_absolute_x
  | 0xB9 => some CPU.lda_absolute_y
  | 0xA1 => some CPU.lda_indexed_indirect
  | 0xB1 => some CPU.lda_indirect_indexed
  | 0xA2 => some CPU.ldx_immediate
  | 0xA6 => some CPU.ldx_zero_page
  | 0xB6 => some CPU.ldx_zero_page_y
  | 0xAE => some CPU.ldx_absolute
  | 0xBE => some CPU.ldx_absolute_y
  | 0xA0 => some CPU.ldy_immediate
  | 0xA4 => some CPU.ldy_zero_page
  | 0xB4 => some CPU.ldy_zero_page_x
  | 0xAC => some CPU.ldy_absolute
  | 0xBC => some CPU.ldy_absolute_x
  | 0x85 => some CPU.sta_zero_page
  | 0x95 => some CPU.sta_zero_page_x
  | 0x8D => some CPU.sta_absolute
  | 0x9D => some CPU.sta_absolute_x
  | 0x99 => some CPU.sta_absolute_y
  | 0x81 => some CPU.sta_indexed_indirect
  | 0x91 => some CPU.sta_indirect_indexed
  | 0x69 => some CPU.adc_immediate
  | 0x65 => some CPU.adc_zero_page
  | 0x75 => some CPU.adc_zero_page_x
  | 0x6D => some CPU.adc_absolute
  | 0x7D => some CPU.adc_absolute_x
  | 0x79 => some CPU.adc_absolute_y
  | 0x61 => some CPU.adc_indexed_indirect
  | 0x71 => some CPU.adc_indirect_indexed
  | 0xE9 => some CPU.sbc_immediate
  | 0xE5 => some CPU.sbc_zero_page
  | 0xF5 => some CPU.sbc_zero_page_x
  | 0xED => some CPU.sbc_absolute
  | 0xFD => some CPU.sbc_absolute_x
  | 0xF9 => some CPU.sbc_absolute_y
  | 0xE1 => some CPU.sbc_indexed_indirect
  | 0xF1 => some CPU.sbc_indirect_indexed
  | 0xC9 => some CPU.cmp_immediate
  | 0xC5 => some CPU.cmp_zero_page
  | 0xD5 => some CPU.cmp_zero_page_x
  | 0xCD => some CPU.cmp_absolute
  | 0xDD => some CPU.cmp_absolute_x
  | 0xD9 => some CPU.cmp_absolute_y
  | 0xC1 => some CPU.cmp_indexed_indirect
  | 0xD1 => some CPU.cmp_indirect_indexed
  | 0xE0 => some CPU.cpx_immediate
  | 0xE4 => some CPU.cpx_zero_page
  | 0xEC => some CPU.cpx_absolute
  | 0xC0 => some CPU.cpy_immediate
  | 0xC4 => some CPU.cpy_zero_page
  | 0xCC => some CPU.cpy_absolute
  | 0x29 => some CPU.and_immediate
  | 0x25 => some CPU.and_zero_page
  | 0x35 => some CPU.and_zero_page_x
  | 0x2D => some CPU.and_absolute
  | 0x3D => some CPU.and_absolute_x
  | 0x39 => some CPU.and_absolute_y
  | 0x21 => some CPU.and_indexed_indirect
  | 0x31 => some CPU.and_indirect_indexed
  | 0x09 => some CPU.ora_immediate
  | 0x05 => some CPU.ora_zero_page
  | 0x15 => some CPU.ora_zero_page_x
  | 0x0D => some CPU.ora_absolute
  | 0x1D => some CPU.ora_absolute_x
  | 0x19 => some CPU.ora_absolute_y
  | 0x01 => some CPU.ora_indexed_indirect
  | 0x11 => some CPU.ora_indirect_indexed
  | 0x49 => some CPU.eor_immediate
  | 0x45 => some CPU.eor_zero_page
  | 0x55 => some CPU.eor_zero_page_x
  | 0x4D => some CPU.eor_absolute
  | 0x5D => some CPU.eor_absolute_x
  | 0x59 => some CPU.eor_absolute_y
  | 0x41 => some CPU.eor_indexed_indirect
  | 0x51 => some CPU.eor_indirect_indexed
  | 0xE6 => some CPU.inc_zero_page
  | 0xF6 => some CPU.inc_zero_page_x
  | 0xEE => some CPU.inc_absolute
  | 0xFE => some CPU.inc_absolute_x
  | 0xC6 => some CPU.dec_zero_page
  | 0xD6 => some CPU.dec_zero_page_x
  | 0xCE => some CPU.dec_absolute
  | 0xDE => some CPU.dec_absolute_x
  | 0xE8 => some CPU.inx
  | 0xC8 => some CPU.iny
  | 0xCA => some CPU.dex
  | 0x88 => some CPU.dey
  | 0xAA => some CPU.tax
  | 0xA8 => some CPU.tay
  | 0x8A => some CPU.txa
  | 0x98 => some CPU.tya
  | 0xBA => some CPU.tsx
  | 0x9A => some CPU.txs
  | 0x4C => some CPU.jmp_absolute
  | 0x6C => some CPU.jmp_indirect
  | 0x20 => some CPU.jsr
  | 0x60 => some CPU.rts
  | 0x00 => some CPU.brk
  | 0x18 => some CPU.clc
  | 0x38 => some CPU.sec
  | 0x58 => some CPU.cli
  | 0x78 => some CPU.sei
  | 0xD8 => some CPU.cld
  | 0xF8 => some CPU.sed
  | 0xB8 => some CPU.clv
  | 0x90 => some CPU.bcc
  | 0xB0 => some CPU.bcs
  | 0xF0 => some CPU.beq
  | 0xD0 => some CPU.bne
  | 0x30 => some CPU.bmi
  | 0x10 => some CPU.bpl
  | 0x50 => some CPU.bvc
  | 0x70 => some CPU.bvs
  | 0xEA => some CPU.nop
  | _ => none

/-- The observable outcome of one `CPU::step` call: either a normal
return with the updated state, or a `panic!` (Rust unwinds; the fields
record the `&mut` state at the moment of the panic). -/
inductive StepOutcome where
  | next (cpu : CPU) (mem : Memory)
  | panicked (cpu : CPU) (mem : Memory)

/-- `CPU::step` (`src/cpu.rs` lines 74-303): no-op while halted;
otherwise fetch the opcode, advance `PC` (wrapping), dispatch, and on a
normal handler return increment `cycles`.  An unrecognized opcode hits
`panic!("Unknown opcode ...")` — no error value is returned and `cycles`
is not incremented (the metrics calls `Timer::new` /
`record_instruction` touch neither the CPU nor the memory and are
omitted). -/
def CPU.step (c : CPU) (m : Memory) : StepOutcome :=
  if c.halted then .next c m
  else
    let opcode := m.read c.pc
    let c1 := { c with pc := (c.pc + 1) % 65536 }
    match decode opcode with
    | none => .panicked c1 m
    | some f =>
      let (c2, m2) := f c1 m
      .next { c2 with cycles := c2.cycles + 1 } m2

/-- `get_instruction_name` (`src/metrics.rs` lines 254-326): the
metrics-side opcode naming table.  Note it names the STX/STY opcodes that
`CPU::step` does not implement. -/
def get_instruction_name (opcode : Nat) : String :=
  match opcode with
  | 0xA9 | 0xA5 | 0xB5 | 0xAD | 0xBD | 0xB9 | 0xA1 | 0xB1 => "LDA"
  | 0xA2 | 0xA6 | 0xB6 | 0xAE | 0xBE => "LDX"
  | 0xA0 | 0xA4 | 0xB4 | 0xAC | 0xBC => "LDY"
  | 0x85 | 0x95 | 0x8D | 0x9D | 0x99 | 0x81 | 0x91 => "STA"
  | 0x86 | 0x96 | 0x8E => "STX"
  | 0x84 | 0x94 | 0x8C => "STY"
  | 0x69 | 0x65 | 0x75 | 0x6D | 0x7D | 0x79 | 0x61 | 0x71 => "ADC"
  | 0xE9 | 0xE5 | 0xF5 | 0xED | 0xFD | 0xF9 | 0xE1 | 0xF1 => "SBC"
  | 0xC9 | 0xC5 | 0xD5 | 0xCD | 0xDD | 0xD9 | 0xC1 | 0xD1 => "CMP"
  | 0xE0 | 0xE4 | 0xEC => "CPX"
  | 0xC0 | 0xC4 | 0xCC => "CPY"
  | 0x29 | 0x25 | 0x35 | 0x2D | 0x3D | 0x39 | 0x21 | 0x31 => "AND"
  | 0x09 | 0x05 | 0x15 | 0x0D | 0x1D | 0x19 | 0x01 | 0x11 => "ORA"
  | 0x49 | 0x45 | 0x55 | 0x4D | 0x5D | 0x59 | 0x41 | 0x51 => "EOR"
  | 0xE6 | 0xF6 | 0xEE | 0xFE => "INC"
  | 0xC6 | 0xD6 | 0xCE | 0xDE => "DEC"
  | 0xE8 => "INX"
  | 0xC8 => "INY"
  | 0xCA => "DEX"
  | 0x88 => "DEY"
  | 0xAA => "TAX"
  | 0xA8 => "TAY"
  | 0x8A => "TXA"
  | 0x98 => "TYA"
  | 0xBA => "TSX"
  | 0x9A => "TXS"
  | 0x4C | 0x6C => "JMP"
  | 0x20 => "JSR"
  | 0x60 => "RTS"
  | 0x18 => "CLC"
  | 0x38 => "SEC"
  | 0x58 => "CLI"
  | 0x78 => "SEI"
  | 0xD8 => "CLD"
  | 0xF8 => "SED"
  | 0xB8 => "CLV"
  | 0x90 => "BCC"
  | 0xB0 => "BCS"
  | 0xF0 => "BEQ"
  | 0xD0 => "BNE"
  | 0x30 => "BMI"
  | 0x10 => "BPL"
  | 0x50 => "BVC"
  | 0x70 => "BVS"
  | 0x00 => "BRK"
  | 0xEA => "NOP"
  | _ => "UNKNOWN"

/-- C3 (amended): executing `step` on an opcode outside the recognized
instruction set does not surface an error value — the source `panic!`s
(modelled by `StepOutcome.panicked`); at the moment of the panic, `PC`
has been advanced past the fetched opcode byte and the cycle counter and
memory are untouched. -/
theorem step_unknown_opcode (c : CPU) (m : Memory)
    (hhalt : c.halted = false) (hdec : decode (m.read c.pc) = none) :
    c.step m = .panicked { c with pc := (c.pc + 1) % 65536 } m := by
  rw [CPU.step, if_neg (by rw [hhalt]; simp)]
  simp only [hdec]

/-- CPU for the C3 scenario: about to fetch at `0x8000`. -/
def c3Cpu : CPU :=
  { a := 0, x := 0, y := 0, pc := 0x8000, sp := 0xFD, status := 0x24,
    cycles := 0, halted := false }

/-- Memory for the C3 scenario: the unlisted opcode `0x02` at `0x8000`. -/
def c3Mem : Memory := fun a => if a = 0x8000 then 0x02 else 0

/-- Witness for C3 (amended) at opcode `0x02`. -/
theorem step_unknown_opcode_witness :
    c3Cpu.halted = false ∧ decode (c3Mem.read c3Cpu.pc) = none ∧
    c3Cpu.step c3Mem = .panicked { c3Cpu with pc := (c3Cpu.pc + 1) % 65536 } c3Mem :=
  ⟨rfl, rfl, step_unknown_opcode c3Cpu c3Mem rfl rfl⟩

/-- C3 counterexample: at the concrete unlisted opcode `0x02`, `step`
panics (`StepOutcome.panicked`) rather than returning to the caller with
an `UnknownOpcode` error — the claim that the error is surfaced to the
caller and that the core never panics is false. -/
theorem step_unknown_opcode_counterexample :
    c3Cpu.step c3Mem = .panicked { c3Cpu with pc := 0x8001 } c3Mem := rfl

/-- CPU for the C4 scenario. -/
def c4Cpu : CPU :=
  { a := 0, x := 9, y := 0, pc := 0x8000, sp := 0xFD, status := 0x24,
    cycles := 0, halted := false }

/-- Memory for the C4 scenario: `86 10` (`STX $10`) at `0x8000`. -/
def c4Mem : Memory := fun a => if a = 0x8000 then 0x86 else if a = 0x8001 then 0x10 else 0

/-- C4: the interpreter's dispatch has no arm for any STX opcode
(`0x86`, `0x96`, `0x8E`) or STY opcode (`0x84`, `0x94`, `0x8C`): all six
fall through to the `panic!` arm, even though the metrics naming table
of the same program identifies them as `STX`/`STY`.  Executing `STX $10`
therefore panics instead of storing `X`. -/
theorem stx_sty_unimplemented :
    decode 0x86 = none ∧ decode 0x96 = none ∧ decode 0x8E = none ∧
    decode 0x84 = none ∧ decode 0x94 = none ∧ decode 0x8C = none ∧
    get_instruction_name 0x86 = "STX" ∧ get_instruction_name 0x96 = "STX" ∧
    get_instruction_name 0x8E = "STX" ∧ get_instruction_name 0x84 = "STY" ∧
    get_instruction_name 0x94 = "STY" ∧ get_instruction_name 0x8C = "STY" ∧
    c4Cpu.step c4Mem = .panicked { c4Cpu with pc := 0x8001 } c4Mem :=
  ⟨rfl, rfl, rfl, rfl, rfl, rfl, rfl, rfl, rfl, rfl, rfl, rfl, rfl⟩

/-- C7: a `JMP (ind)` whose pointer's low byte is `0xFF` fetches the
target's high byte from the start of the pointer's own page
(`ptr & 0xFF00`), not from `ptr + 1`. -/
theorem jmp_indirect_page_wrap (c : CPU) (m : Memory) (ptr : Nat)
    (hhalt : c.halted = false) (hop : m.read c.pc = 0x6C)
    (hptrdef : ptr =
      (m.read (((c.pc + 1) % 65536 + 1) % 65536) <<< 8) ||| m.read ((c.pc + 1) % 65536))
    (hlow : ptr &&& 0xFF = 0xFF) :
    c.step m =
      .next { c with pc := (m.read (ptr &&& 0xFF00) <<< 8) ||| m.read ptr,
                     cycles := c.cycles + 1 } m := by
  subst hptrdef
  rw [CPU.step, if_neg (by rw [hhalt]; simp), hop]
  simp only [show decode 0x6C = some CPU.jmp_indirect from rfl]
  simp only [CPU.jmp_indirect]
  rw [if_pos hlow]

/-- CPU for the C7 scenario. -/
def c7Cpu : CPU :=
  { a := 0, x := 0, y := 0, pc := 0x8000, sp := 0xFD, status := 0x24,
    cycles := 0, halted := false }

/-- Memory for the C7 scenario: `6C FF 30` at `0x8000`,
`[0x30FF] = 0x00`, `[0x3000] = 0x40`, `[0x3100] = 0x50`. -/
def c7Mem : Memory := fun a =>
  if a = 0x8000 then 0x6C else if a = 0x8001 then 0xFF else if a = 0x8002 then 0x30
  else if a = 0x30FF then 0x00 else if a = 0x3000 then 0x40
  else if a = 0x3100 then 0x50 else 0

/-- Witness for C7 at the spec's concrete scenario: one step lands at
`PC = 0x4000`, not `0x5000`. -/
theorem jmp_indirect_page_wrap_witness :
    c7Cpu.halted = false ∧ c7Mem.read c7Cpu.pc = 0x6C ∧
    (0x30FF : Nat) &&& 0xFF = 0xFF ∧
    c7Cpu.step c7Mem = .next { c7Cpu with pc := 0x4000, cycles := 1 } c7Mem := by
  have h := jmp_indirect_page_wrap c7Cpu c7Mem 0x30FF rfl rfl (by decide) (by decide)
  exact ⟨rfl, rfl, by decide, by rw [h]; rfl⟩

/-- C10: `resume` clears the halted latch and changes nothing else (it
does not touch memory); a halted CPU's `step` is a pure no-op, and after
`resume` the very next `step` runs the normal fetch–decode–execute path
with no reset required. -/
theorem resume_spec (c : CPU) (m : Memory) :
    c.resume = { c with halted := false } ∧
    ({ c with halted := true }).step m = .next { c with halted := true } m ∧
    (c.resume).step m =
      (match decode (m.read c.pc) with
       | none => StepOutcome.panicked { c with halted := false, pc := (c.pc + 1) % 65536 } m
       | some f =>
         let r := f { c with halted := false, pc := (c.pc + 1) % 65536 } m
         StepOutcome.next { r.1 with cycles := r.1.cycles + 1 } r.2) := by
  refine ⟨rfl, rfl, ?_⟩
  rw [CPU.resume, CPU.step, if_neg (by simp)]

/-! ## Program loading (`src/memory.rs` lines 21-26, `src/server.rs` lines 184-188) -/

/-- `Memory::load_rom`: `end = min(start + data.len(), 65536)`,
`len = end - start`, then `data[start..end].copy_from_slice(&data[..len])`
— a bulk copy of the first `len` bytes, truncating at the 64 KiB boundary
with no wrap-around.  The bulk copy is modelled as the sequential write
loop `write_seq` over the copied prefix. -/
def Memory.load_rom (m : Memory) (data : List Nat) (start_address : Nat) : Memory :=
  let e := min (start_address + data.length) 65536
  write_seq m start_address (data.take (e - start_address))

/-- The write loop of `Emulator::load_program`:
`for (i, &byte) in data.iter().enumerate() { self.memory.write(address + i as u16, byte) }`,
with a running index.  `i as u16` truncates modulo 65536 and the `u16`
addition `address + i as u16` wraps modulo 65536 (release-build
semantics; a debug build would abort on the overflow instead). -/
def load_program_go (m : Memory) (address : Nat) (i : Nat) : List Nat → Memory
  | [] => m
  | b :: rest => load_program_go (m.write ((address + i % 65536) % 65536) b) address (i + 1) rest

/-- `Emulator::load_program` (`src/server.rs` lines 184-188), as its
effect on the emulator's memory: unlike `Memory::load_rom` it performs no
truncation at the 64 KiB boundary. -/
def Emulator.load_program (m : Memory) (address : Nat) (data : List Nat) : Memory :=
  load_program_go m address 0 data

/-- Cells outside the written index range are untouched by the
`load_program` loop. -/
theorem load_program_go_untouched :
    ∀ (data : List Nat) (m : Memory) (address i0 a : Nat),
      (∀ j, i0 ≤ j → j < i0 + data.length → a ≠ (address + j % 65536) % 65536) →
      (load_program_go m address i0 data).read a = m.read a
  | [], _, _, _, _, _ => rfl
  | b :: rest, m, address, i0, a, hout => by
    rw [load_program_go]
    rw [load_program_go_untouched rest _ address (i0 + 1) a
      (fun j hj1 hj2 => hout j (by omega)
        (by simp only [List.length_cons] at hj2 ⊢; omega))]
    rw [Memory.read_write,
      if_neg (hout i0 (le_refl i0) (by simp only [List.length_cons]; omega))]

/-- Each byte of `load_program` lands at `(address + i) mod 65536`
(when at most 65536 bytes are loaded, no later write covers it). -/
theorem load_program_go_read :
    ∀ (data : List Nat) (m : Memory) (address i0 j : Nat),
      j < data.length → i0 + data.length ≤ 65536 →
      (load_program_go m address i0 data).read ((address + (i0 + j)) % 65536) =
        data.getD j 0
  | [], _, _, _, j, hj, _ => by simp at hj
  | b :: rest, m, address, i0, 0, _, hlen => by
    rw [load_program_go]
    rw [load_program_go_untouched rest _ address (i0 + 1) _ ?hdistinct]
    case hdistinct =>
      intro j hj1 hj2
      simp only [List.length_cons] at hlen
      have hj3 : j < 65536 := by omega
      rw [Nat.mod_eq_of_lt hj3]
      omega
    have hi0 : i0 % 65536 = i0 := Nat.mod_eq_of_lt (by simp at hlen; omega)
    rw [hi0, Nat.add_zero, Memory.read_write, if_pos rfl]
    rfl
  | b :: rest, m, address, i0, j + 1, hj, hlen => by
    rw [load_program_go]
    have := load_program_go_read rest (m.write ((address + i0 % 65536) % 65536) b)
      address (i0 + 1) j (by simp at hj; omega) (by simp at hlen; omega)
    rw [show address + (i0 + (j + 1)) = address + (i0 + 1 + j) by omega, this]
    rfl

/-- C9 (amended): `Memory::load_rom` copies bytes to consecutive
addresses from `start` and truncates at the 64 KiB boundary (bytes whose
destination would be at or past 65536 are dropped; no cell below `start`
is written); `Emulator::load_program` does NOT truncate: byte `i` is
written at `(start + i) mod 65536`, so overflowing bytes wrap around to
low addresses. -/
theorem program_load_spec (m : Memory) (data : List Nat) (start : Nat)
    (hstart : start < 65536) (hlen : data.length ≤ 65536) :
    (∀ a, a < 65536 →
      (m.load_rom data start).read a =
        if start ≤ a ∧ a < min (start + data.length) 65536 then data.getD (a - start) 0
        else m.read a) ∧
    (∀ i, i < data.length →
      (Emulator.load_program m start data).read ((start + i) % 65536) = data.getD i 0) := by
  constructor
  · intro a ha
    rw [Memory.load_rom]
    have htl : (data.take (min (start + data.length) 65536 - start)).length =
        min (start + data.length) 65536 - start := by
      rw [List.length_take]
      omega
    rw [write_seq_read _ m start a (by omega) ha, htl]
    by_cases hin : start ≤ a ∧ a < start + (min (start + data.length) 65536 - start)
    · rw [if_pos hin, if_pos (by omega)]
      rw [List.getD_eq_getElem?_getD, List.getD_eq_getElem?_getD,
        List.getElem?_take_of_lt (by omega)]
    · rw [if_neg hin, if_neg (by omega)]
  · intro i hi
    have := load_program_go_read data m start 0 i hi (by omega)
    rw [Emulator.load_program, show start + i = start + (0 + i) by omega, this]

/-- Base memory for the C9 scenario. -/
def c9Mem : Memory := fun _ => 0

/-- Witness for C9 (amended) at `start = 0xFFFF`, `data = [1, 2]`:
`load_rom` keeps byte 0 at `0xFFFF` and drops byte 1, while
`load_program` wraps byte 1 around to address 0. -/
theorem program_load_spec_witness :
    (0xFFFF : Nat) < 65536 ∧ ([1, 2] : List Nat).length ≤ 65536 ∧
    (c9Mem.load_rom [1, 2] 0xFFFF).read 0xFFFF = 1 ∧
    (Emulator.load_program c9Mem 0xFFFF [1, 2]).read ((0xFFFF + 1) % 65536) = 2 := by
  have h := program_load_spec c9Mem [1, 2] 0xFFFF (by decide) (by decide)
  refine ⟨by decide, by decide, ?_, ?_⟩
  · rw [h.1 0xFFFF (by decide)]
    decide
  · rw [h.2 1 (by decide)]
    decide

/-- C9 counterexample: `Emulator::load_program` at `start = 0xFFFF` with
two bytes writes the second byte at the wrapped-around low address 0 —
the claim that bytes past the 64 KiB boundary are dropped and that no
byte is written at a wrapped-around low address is false for this
program-load entry point. -/
theorem program_load_counterexample :
    (Emulator.load_program c9Mem 0xFFFF [1, 2]).read 0 = 2 ∧ c9Mem.read 0 = 0 := by
  exact ⟨rfl, rfl⟩
